import Mathlib

/-!
# Stockfighter Go client — formal model

A shallow embedding of the Stockfighter HTTP API client (package
`stockfighter`: `client.go`, `errors.go`, `types.go`).  Every client
operation is a single request/response round trip; we model the transport
as a function from requests to responses and each operation as a pure
function returning its outcome together with the list of requests it
issued.
-/

set_option maxHeartbeats 1000000
set_option maxRecDepth 16384

namespace Stockfighter

/-! ## JSON documents

The Go client decodes response bodies with `encoding/json` and renders the
order-placement body with `fmt.Sprintf`.  We model JSON documents with the
`Json` type, scan text into tokens with a character-at-a-time state machine
(`lexStep`, folded over the input), and parse the token stream with a
fuel-indexed recursive-descent parser.  Simplifications relative to Go's
decoder, none of which is exercised by the claims: number literals that are
not optionally-signed decimal integers are kept as raw `numOther` tokens
without further syntax validation, `time.Time` fields are modelled as raw
strings, struct keys are matched case-sensitively, and the whole body must
scan even though Go's `Decoder.Decode` stops reading after the first
value. -/

inductive Json where
  | null
  | bool (b : Bool)
  | num (n : Int)
  | numOther (raw : String)
  | str (s : String)
  | arr (elems : List Json)
  | obj (members : List (String × Json))

inductive JTok where
  | lbrace | rbrace | lbrack | rbrack | colon | comma
  | str (s : String)
  | int (n : Int)
  | numOther (raw : String)
  | tru | fls | nul
deriving Repr, DecidableEq

/-- Fold a run of decimal digit characters into the number they denote. -/
def digitsToNat (ds : List Char) : Nat :=
  ds.foldl (fun a c => a * 10 + (c.toNat - 48)) 0

/-- Classify a completed number-character run: an optionally-signed decimal
integer becomes an `int` token, anything else is kept raw. -/
def emitNum (acc : List Char) : Option JTok :=
  if acc ≠ [] ∧ acc.all Char.isDigit = true then
    some (JTok.int (digitsToNat acc))
  else if acc.head? = some ('-') ∧ acc.tail ≠ [] ∧ acc.tail.all Char.isDigit = true then
    some (JTok.int (-(digitsToNat acc.tail : Int)))
  else some (JTok.numOther ⟨acc⟩)

/-- Classify a completed keyword run (`true` / `false` / `null`). -/
def emitKw (acc : List Char) : Option JTok :=
  if (⟨acc⟩ : String) = "true" then some JTok.tru
  else if (⟨acc⟩ : String) = "false" then some JTok.fls
  else if (⟨acc⟩ : String) = "null" then some JTok.nul
  else none

/-- JSON insignificant whitespace. -/
def jsonWs (c : Char) : Bool :=
  c = ' ' || c = '\t' || c = '\n' || c = '\r'

/-- Characters that may continue a JSON number literal. -/
def numChar (c : Char) : Bool :=
  c.isDigit || c = '-' || c = '+' || c = '.' || c = 'e' || c = 'E'

def hexDigitVal (c : Char) : Nat :=
  if c.toNat ≥ 97 then c.toNat - 87
  else if c.toNat ≥ 65 then c.toNat - 55
  else c.toNat - 48

def isHexDig (c : Char) : Bool :=
  c.isDigit || (('a' ≤ c) && (c ≤ 'f')) || (('A' ≤ c) && (c ≤ 'F'))

/-- Map the character after a backslash escape to the character it denotes
(`\u` is handled separately). -/
def escChar (c : Char) : Option Char :=
  if c = '\"' then some c
  else if c = '\\' then some c
  else if c = '/' then some c
  else if c = 'b' then some (Char.ofNat 8)
  else if c = 'f' then some (Char.ofNat 12)
  else if c = 'n' then some ('\n')
  else if c = 'r' then some ('\r')
  else if c = 't' then some ('\t')
  else none

/-- Scanner mode: at top level, inside a string (plus escape sub-modes),
inside a number, inside a keyword, or failed. -/
inductive LexMode where
  | top
  | instr (acc : List Char)
  | esc (acc : List Char)
  | uesc (acc : List Char) (hex : List Char)
  | num (acc : List Char)
  | kw (acc : List Char)
  | bad
deriving Repr, DecidableEq

structure LexSt where
  mode : LexMode
  out : List JTok
deriving Repr, DecidableEq

/-- Handle one character in top-level mode. -/
def topStep (out : List JTok) (c : Char) : LexSt :=
  if jsonWs c then ⟨LexMode.top, out⟩
  else if c = '\x7b' then ⟨LexMode.top, out ++ [JTok.lbrace]⟩
  else if c = '\x7d' then ⟨LexMode.top, out ++ [JTok.rbrace]⟩
  else if c = '[' then ⟨LexMode.top, out ++ [JTok.lbrack]⟩
  else if c = ']' then ⟨LexMode.top, out ++ [JTok.rbrack]⟩
  else if c = ':' then ⟨LexMode.top, out ++ [JTok.colon]⟩
  else if c = ',' then ⟨LexMode.top, out ++ [JTok.comma]⟩
  else if c = '\"' then ⟨LexMode.instr [], out⟩
  else if c.isDigit || c = '-' then ⟨LexMode.num [c], out⟩
  else if c.isAlpha then ⟨LexMode.kw [c], out⟩
  else ⟨LexMode.bad, out⟩

/-- One scanner transition. -/
def lexStep (st : LexSt) (c : Char) : LexSt :=
  match st.mode with
  | LexMode.bad => st
  | LexMode.top => topStep st.out c
  | LexMode.instr acc =>
      if c = '\"' then ⟨LexMode.top, st.out ++ [JTok.str ⟨acc⟩]⟩
      else if c = '\\' then ⟨LexMode.esc acc, st.out⟩
      else if c.toNat < 32 then ⟨LexMode.bad, st.out⟩
      else ⟨LexMode.instr (acc ++ [c]), st.out⟩
  | LexMode.esc acc =>
      if c = 'u' then ⟨LexMode.uesc acc [], st.out⟩
      else
        match escChar c with
        | some d => ⟨LexMode.instr (acc ++ [d]), st.out⟩
        | none => ⟨LexMode.bad, st.out⟩
  | LexMode.uesc acc hex =>
      if isHexDig c then
        if hex.length = 3 then
          ⟨LexMode.instr (acc ++ [Char.ofNat ((hex ++ [c]).foldl (fun a d => a * 16 + hexDigitVal d) 0)]), st.out⟩
        else ⟨LexMode.uesc acc (hex ++ [c]), st.out⟩
      else ⟨LexMode.bad, st.out⟩
  | LexMode.num acc =>
      if numChar c then ⟨LexMode.num (acc ++ [c]), st.out⟩
      else
        match emitNum acc with
        | some t => topStep (st.out ++ [t]) c
        | none => ⟨LexMode.bad, st.out⟩
  | LexMode.kw acc =>
      if c.isAlpha then ⟨LexMode.kw (acc ++ [c]), st.out⟩
      else
        match emitKw acc with
        | some t => topStep (st.out ++ [t]) c
        | none => ⟨LexMode.bad, st.out⟩

/-- Flush the scanner's final state. -/
def lexFinish (st : LexSt) : Option (List JTok) :=
  match st.mode with
  | LexMode.top => some st.out
  | LexMode.num acc => (emitNum acc).map (fun t => st.out ++ [t])
  | LexMode.kw acc => (emitKw acc).map (fun t => st.out ++ [t])
  | _ => none

def lexAll (cs : List Char) : Option (List JTok) :=
  lexFinish (cs.foldl lexStep ⟨LexMode.top, []⟩)

/-! Recursive-descent parser over the token stream.  The fuel argument
strictly decreases on every call; `tokens.length + 1` is always enough
fuel because every call consumes at least one token. -/

mutual

def pValue : Nat → List JTok → Option (Json × List JTok)
  | 0, _ => none
  | f + 1, ts =>
    match ts with
    | JTok.lbrace :: JTok.rbrace :: rest => some (Json.obj [], rest)
    | JTok.lbrace :: rest => pMember f rest []
    | JTok.lbrack :: JTok.rbrack :: rest => some (Json.arr [], rest)
    | JTok.lbrack :: rest => pElem f rest []
    | JTok.str s :: rest => some (Json.str s, rest)
    | JTok.int n :: rest => some (Json.num n, rest)
    | JTok.numOther r :: rest => some (Json.numOther r, rest)
    | JTok.tru :: rest => some (Json.bool true, rest)
    | JTok.fls :: rest => some (Json.bool false, rest)
    | JTok.nul :: rest => some (Json.null, rest)
    | _ => none

def pMember : Nat → List JTok → List (String × Json) → Option (Json × List JTok)
  | 0, _, _ => none
  | f + 1, ts, acc =>
    match ts with
    | JTok.str k :: JTok.colon :: rest =>
      match pValue f rest with
      | some (v, JTok.comma :: rest2) => pMember f rest2 (acc ++ [(k, v)])
      | some (v, JTok.rbrace :: rest2) => some (Json.obj (acc ++ [(k, v)]), rest2)
      | _ => none
    | _ => none

def pElem : Nat → List JTok → List Json → Option (Json × List JTok)
  | 0, _, _ => none
  | f + 1, ts, acc =>
    match pValue f ts with
    | some (v, JTok.comma :: rest2) => pElem f rest2 (acc ++ [v])
    | some (v, JTok.rbrack :: rest2) => some (Json.arr (acc ++ [v]), rest2)
    | _ => none

end

/-- Decode the first JSON value of a body, as `json.Decoder.Decode` does
(trailing tokens are ignored; an empty body fails like `io.EOF`). -/
def parseOne (s : String) : Option Json :=
  (lexAll s.data).bind fun toks => (pValue (toks.length + 1) toks).map Prod.fst

/-! ## `strings.TrimSpace`

Go trims the characters for which `unicode.IsSpace` holds from both ends. -/

def isSpaceGo (c : Char) : Bool :=
  c = ' ' || c = '\t' || c = '\n' || (11 ≤ c.toNat && c.toNat ≤ 13) ||
  c.toNat = 133 || c.toNat = 160 || c.toNat = 5760 ||
  (8192 ≤ c.toNat && c.toNat ≤ 8202) || c.toNat = 8232 || c.toNat = 8233 ||
  c.toNat = 8239 || c.toNat = 8287 || c.toNat = 12288

def trimSpace (s : String) : String :=
  ⟨((s.data.dropWhile isSpaceGo).reverse.dropWhile isSpaceGo).reverse⟩

example : trimSpace (" ab c\t") = "ab c" := by decide

example : parseOne ("\x7b\"ok\": true, \"error\": \"\"\x7d") =
    some (Json.obj [("ok", Json.bool true), ("error", Json.str "")]) := by rfl

example : parseOne ("") = none := by rfl

example : parseOne ("\x7b\"a\": [1, -2, \"x\"]\x7d garbage") = none := by rfl

example : parseOne ("\x7b\"a\": [1, -2, \"x\"]\x7d  ") =
    some (Json.obj [("a", Json.arr [Json.num 1, Json.num (-2), Json.str "x"])]) := by rfl

/-! ## Domain records (types.go)

`time.Time` fields are modelled as the raw timestamp strings; all integer
wire fields are `uint64`/`int64` in Go and `Nat`/`Int` here, with the Go
range checks applied during decoding.  Structure defaults are the Go zero
values, which is what `encoding/json` starts from. -/

structure StockInfo where
  Name : String := ""
  Symbol : String := ""
deriving Repr, DecidableEq

structure StockQuote where
  BidPrice : Nat := 0
  BidSize : Nat := 0
  BidDepth : Nat := 0
  AskPrice : Nat := 0
  AskSize : Nat := 0
  AskDepth : Nat := 0
  LastPrice : Nat := 0
  LastSize : Nat := 0
  LastTradeTime : String := ""
  QuoteTime : String := ""
deriving Repr, DecidableEq

structure OrderbookEntry where
  Price : Nat := 0
  Quantity : Nat := 0
  IsBuy : Bool := false
deriving Repr, DecidableEq

structure Orderbook where
  Bids : List OrderbookEntry := []
  Asks : List OrderbookEntry := []
  Timestamp : String := ""
deriving Repr, DecidableEq

structure OrderFillInfo where
  Price : Nat := 0
  Quantity : Nat := 0
  Timestamp : String := ""
deriving Repr, DecidableEq

structure OrderStatus where
  Direction : String := ""
  OriginalQuantity : Nat := 0
  Quantity : Nat := 0
  Price : Nat := 0
  OrderType : String := ""
  OrderID : Int := 0
  Account : String := ""
  Timestamp : String := ""
  Fills : List OrderFillInfo := []
  TotalFilled : Nat := 0
  Open : Bool := false
deriving Repr, DecidableEq

/-- Modelled from the spec: the repository's `Order` type is not among the
provided files, but `GetAllOrders` returns `respData.Orders` (of type
`[]Order`) where the function's result type is `[]OrderStatus`, so Go's type
system forces `Order` to be an alias of `OrderStatus` (spec §3 likewise
describes order listings as sequences of OrderStatus records). -/
abbrev Order := OrderStatus

/-! ## Response envelopes (types.go, `apiResp*`) -/

structure ApiRespHeartbeat where
  OK : Bool := false
  Error : String := ""
deriving Repr, DecidableEq

structure ApiRespStocks where
  OK : Bool := false
  Error : String := ""
  Stocks : List StockInfo := []
deriving Repr, DecidableEq

structure ApiRespStockOrderbook where
  OK : Bool := false
  Error : String := ""
  VenueSymbol : String := ""
  StockSymbol : String := ""
  Bids : List OrderbookEntry := []
  Asks : List OrderbookEntry := []
  Timestamp : String := ""
deriving Repr, DecidableEq

structure ApiRespNewStockOrder where
  OK : Bool := false
  Error : String := ""
  VenueSymbol : String := ""
  StockSymbol : String := ""
  Direction : String := ""
  OriginalQuantity : Nat := 0
  Quantity : Nat := 0
  Price : Nat := 0
  OrderType : String := ""
  OrderID : Int := 0
  Account : String := ""
  Timestamp : String := ""
  Fills : List OrderFillInfo := []
  TotalFilled : Nat := 0
  Open : Bool := false
deriving Repr, DecidableEq

/-- Go declares `apiRespStockOrderStatus` with exactly the same fields and
JSON tags as `apiRespNewStockOrder`; we share one structure. -/
abbrev ApiRespStockOrderStatus := ApiRespNewStockOrder

structure ApiRespStockQuote where
  OK : Bool := false
  Error : String := ""
  VenueSymbol : String := ""
  StockSymbol : String := ""
  BidPrice : Nat := 0
  BidSize : Nat := 0
  BidDepth : Nat := 0
  AskPrice : Nat := 0
  AskSize : Nat := 0
  AskDepth : Nat := 0
  LastPrice : Nat := 0
  LastSize : Nat := 0
  LastTradeTime : String := ""
  QuoteTime : String := ""
deriving Repr, DecidableEq

structure ApiRespAllOrdersStatus where
  OK : Bool := false
  Error : String := ""
  VenueSymbol : String := ""
  Orders : List OrderStatus := []
deriving Repr, DecidableEq

/-! ## Decoding a `Json` document into the envelope structures

Mirrors `encoding/json` struct decoding: keys are processed in document
order (a later duplicate overwrites an earlier one), unknown keys are
ignored, a missing key leaves the zero value, a JSON `null` leaves the
field untouched, and a type mismatch aborts with an error. -/

def jBool? : Json → Option Bool
  | Json.bool b => some b
  | _ => none

def jStr? : Json → Option String
  | Json.str s => some s
  | _ => none

/-- Decode a `uint64` field, with Go's range check. -/
def jU64? : Json → Option Nat
  | Json.num n => if 0 ≤ n ∧ n < (2 : Int) ^ 64 then some n.toNat else none
  | _ => none

/-- Decode an `int64` field, with Go's range check. -/
def jI64? : Json → Option Int
  | Json.num n => if -(2 : Int) ^ 63 ≤ n ∧ n < (2 : Int) ^ 63 then some n else none
  | _ => none

/-- Assign one struct field: `null` is a no-op, otherwise the value must
decode at the field's type. -/
def setF {α β : Type} (acc : α) (v : Json) (get : Json → Option β) (upd : β → α) : Option α :=
  match v with
  | Json.null => some acc
  | _ => (get v).map upd

def jList? {α : Type} (dec : Json → Option α) : Json → Option (List α)
  | Json.arr es => es.mapM dec
  | _ => none

def decStockInfo : Json → Option StockInfo
  | Json.null => some {}
  | Json.obj fs => fs.foldlM (fun a kv =>
      if kv.1 = "name" then setF a kv.2 jStr? (fun s => {a with Name := s})
      else if kv.1 = "symbol" then setF a kv.2 jStr? (fun s => {a with Symbol := s})
      else some a) {}
  | _ => none

def decEntry : Json → Option OrderbookEntry
  | Json.null => some {}
  | Json.obj fs => fs.foldlM (fun a kv =>
      if kv.1 = "price" then setF a kv.2 jU64? (fun n => {a with Price := n})
      else if kv.1 = "qty" then setF a kv.2 jU64? (fun n => {a with Quantity := n})
      else if kv.1 = "isBuy" then setF a kv.2 jBool? (fun b => {a with IsBuy := b})
      else some a) {}
  | _ => none

def decFill : Json → Option OrderFillInfo
  | Json.null => some {}
  | Json.obj fs => fs.foldlM (fun a kv =>
      if kv.1 = "price" then setF a kv.2 jU64? (fun n => {a with Price := n})
      else if kv.1 = "qty" then setF a kv.2 jU64? (fun n => {a with Quantity := n})
      else if kv.1 = "ts" then setF a kv.2 jStr? (fun s => {a with Timestamp := s})
      else some a) {}
  | _ => none

/-- Element decoder for `[]Order` (= `[]OrderStatus`), using the JSON tags
of `OrderStatus` in types.go — note the order-type tag there is `type`. -/
def decOrderStatusElem : Json → Option OrderStatus
  | Json.null => some {}
  | Json.obj fs => fs.foldlM (fun a kv =>
      if kv.1 = "direction" then setF a kv.2 jStr? (fun s => {a with Direction := s})
      else if kv.1 = "originalQty" then setF a kv.2 jU64? (fun n => {a with OriginalQuantity := n})
      else if kv.1 = "qty" then setF a kv.2 jU64? (fun n => {a with Quantity := n})
      else if kv.1 = "price" then setF a kv.2 jU64? (fun n => {a with Price := n})
      else if kv.1 = "type" then setF a kv.2 jStr? (fun s => {a with OrderType := s})
      else if kv.1 = "id" then setF a kv.2 jI64? (fun n => {a with OrderID := n})
      else if kv.1 = "account" then setF a kv.2 jStr? (fun s => {a with Account := s})
      else if kv.1 = "ts" then setF a kv.2 jStr? (fun s => {a with Timestamp := s})
      else if kv.1 = "fills" then setF a kv.2 (jList? decFill) (fun l => {a with Fills := l})
      else if kv.1 = "totalFilled" then setF a kv.2 jU64? (fun n => {a with TotalFilled := n})
      else if kv.1 = "open" then setF a kv.2 jBool? (fun b => {a with Open := b})
      else some a) {}
  | _ => none

def decHeartbeatEnv : Json → Option ApiRespHeartbeat
  | Json.null => some {}
  | Json.obj fs => fs.foldlM (fun a kv =>
      if kv.1 = "ok" then setF a kv.2 jBool? (fun b => {a with OK := b})
      else if kv.1 = "error" then setF a kv.2 jStr? (fun s => {a with Error := s})
      else some a) {}
  | _ => none

def decStocksEnv : Json → Option ApiRespStocks
  | Json.null => some {}
  | Json.obj fs => fs.foldlM (fun a kv =>
      if kv.1 = "ok" then setF a kv.2 jBool? (fun b => {a with OK := b})
      else if kv.1 = "error" then setF a kv.2 jStr? (fun s => {a with Error := s})
      else if kv.1 = "symbols" then setF a kv.2 (jList? decStockInfo) (fun l => {a with Stocks := l})
      else some a) {}
  | _ => none

def decOrderbookEnv : Json → Option ApiRespStockOrderbook
  | Json.null => some {}
  | Json.obj fs => fs.foldlM (fun a kv =>
      if kv.1 = "ok" then setF a kv.2 jBool? (fun b => {a with OK := b})
      else if kv.1 = "error" then setF a kv.2 jStr? (fun s => {a with Error := s})
      else if kv.1 = "venue" then setF a kv.2 jStr? (fun s => {a with VenueSymbol := s})
      else if kv.1 = "symbol" then setF a kv.2 jStr? (fun s => {a with StockSymbol := s})
      else if kv.1 = "bids" then setF a kv.2 (jList? decEntry) (fun l => {a with Bids := l})
      else if kv.1 = "asks" then setF a kv.2 (jList? decEntry) (fun l => {a with Asks := l})
      else if kv.1 = "ts" then setF a kv.2 jStr? (fun s => {a with Timestamp := s})
      else some a) {}
  | _ => none

/-- Shared by `apiRespNewStockOrder` and `apiRespStockOrderStatus`, whose
fields and JSON tags coincide (order-type tag `orderType`). -/
def decOrderEnv : Json → Option ApiRespNewStockOrder
  | Json.null => some {}
  | Json.obj fs => fs.foldlM (fun a kv =>
      if kv.1 = "ok" then setF a kv.2 jBool? (fun b => {a with OK := b})
      else if kv.1 = "error" then setF a kv.2 jStr? (fun s => {a with Error := s})
      else if kv.1 = "venue" then setF a kv.2 jStr? (fun s => {a with VenueSymbol := s})
      else if kv.1 = "symbol" then setF a kv.2 jStr? (fun s => {a with StockSymbol := s})
      else if kv.1 = "direction" then setF a kv.2 jStr? (fun s => {a with Direction := s})
      else if kv.1 = "originalQty" then setF a kv.2 jU64? (fun n => {a with OriginalQuantity := n})
      else if kv.1 = "qty" then setF a kv.2 jU64? (fun n => {a with Quantity := n})
      else if kv.1 = "price" then setF a kv.2 jU64? (fun n => {a with Price := n})
      else if kv.1 = "orderType" then setF a kv.2 jStr? (fun s => {a with OrderType := s})
      else if kv.1 = "id" then setF a kv.2 jI64? (fun n => {a with OrderID := n})
      else if kv.1 = "account" then setF a kv.2 jStr? (fun s => {a with Account := s})
      else if kv.1 = "ts" then setF a kv.2 jStr? (fun s => {a with Timestamp := s})
      else if kv.1 = "fills" then setF a kv.2 (jList? decFill) (fun l => {a with Fills := l})
      else if kv.1 = "totalFilled" then setF a kv.2 jU64? (fun n => {a with TotalFilled := n})
      else if kv.1 = "open" then setF a kv.2 jBool? (fun b => {a with Open := b})
      else some a) {}
  | _ => none

def decQuoteEnv : Json → Option ApiRespStockQuote
  | Json.null => some {}
  | Json.obj fs => fs.foldlM (fun a kv =>
      if kv.1 = "ok" then setF a kv.2 jBool? (fun b => {a with OK := b})
      else if kv.1 = "error" then setF a kv.2 jStr? (fun s => {a with Error := s})
      else if kv.1 = "venue" then setF a kv.2 jStr? (fun s => {a with VenueSymbol := s})
      else if kv.1 = "symbol" then setF a kv.2 jStr? (fun s => {a with StockSymbol := s})
      else if kv.1 = "bid" then setF a kv.2 jU64? (fun n => {a with BidPrice := n})
      else if kv.1 = "bidSize" then setF a kv.2 jU64? (fun n => {a with BidSize := n})
      else if kv.1 = "bidDepth" then setF a kv.2 jU64? (fun n => {a with BidDepth := n})
      else if kv.1 = "ask" then setF a kv.2 jU64? (fun n => {a with AskPrice := n})
      else if kv.1 = "askSize" then setF a kv.2 jU64? (fun n => {a with AskSize := n})
      else if kv.1 = "askDepth" then setF a kv.2 jU64? (fun n => {a with AskDepth := n})
      else if kv.1 = "last" then setF a kv.2 jU64? (fun n => {a with LastPrice := n})
      else if kv.1 = "lastSize" then setF a kv.2 jU64? (fun n => {a with LastSize := n})
      else if kv.1 = "lastTrade" then setF a kv.2 jStr? (fun s => {a with LastTradeTime := s})
      else if kv.1 = "quoteTime" then setF a kv.2 jStr? (fun s => {a with QuoteTime := s})
      else some a) {}
  | _ => none

def decAllOrdersEnv : Json → Option ApiRespAllOrdersStatus
  | Json.null => some {}
  | Json.obj fs => fs.foldlM (fun a kv =>
      if kv.1 = "ok" then setF a kv.2 jBool? (fun b => {a with OK := b})
      else if kv.1 = "error" then setF a kv.2 jStr? (fun s => {a with Error := s})
      else if kv.1 = "venue" then setF a kv.2 jStr? (fun s => {a with VenueSymbol := s})
      else if kv.1 = "orders" then setF a kv.2 (jList? decOrderStatusElem) (fun l => {a with Orders := l})
      else some a) {}
  | _ => none

def decodeHeartbeat (body : String) : Option ApiRespHeartbeat :=
  (parseOne body).bind decHeartbeatEnv

def decodeStocks (body : String) : Option ApiRespStocks :=
  (parseOne body).bind decStocksEnv

def decodeOrderbook (body : String) : Option ApiRespStockOrderbook :=
  (parseOne body).bind decOrderbookEnv

def decodeOrder (body : String) : Option ApiRespNewStockOrder :=
  (parseOne body).bind decOrderEnv

def decodeQuote (body : String) : Option ApiRespStockQuote :=
  (parseOne body).bind decQuoteEnv

def decodeAllOrders (body : String) : Option ApiRespAllOrdersStatus :=
  (parseOne body).bind decAllOrdersEnv

/-! ## Errors (errors.go) and call outcomes

`transport` stands for the error value returned by `http.Client` itself,
`decodeErr` for a `json.Decoder.Decode` failure (its message is dropped,
only claims about the error's kind are made), and `apiError` for
`errors.New(respData.Error)`.  Blank-identifier precondition failures
`panic` in the source, which is a distinct outcome from any returned
error. -/

inductive SFError where
  | transport (msg : String)
  | decodeErr
  | unauthorized
  | venueNotFound (venue : String)
  | stockNotFound (venue stock : String)
  | apiTimeout
  | apiError (msg : String)
deriving Repr, DecidableEq

inductive Outcome (α : Type) where
  | panicked (msg : String)
  | fail (e : SFError)
  | ok (a : α)
deriving Repr, DecidableEq

/-! ## Transport model

A `Request` records everything the client hands to `net/http`: method, URL,
the explicitly set headers (`httpClient.Get` sets none) and the optional
body.  A `Transport` either fails like `http.Client.Do`/`Get` or yields a
status code and a body. -/

structure Request where
  method : String
  url : String
  headers : List (String × String)
  body : Option String
deriving Repr, DecidableEq

structure Response where
  status : Nat
  body : String
deriving Repr, DecidableEq

abbrev Transport := Request → Except String Response

/-- A transport that always yields the given response, for stating
claims about how a response with a given status and body is handled. -/
def mkT (resp : Response) : Transport := fun _ => Except.ok resp

def apiBaseURL : String := "https://api.stockfighter.io/ob/api"

/-- The client holds only the API key; the HTTP client is the `Transport`
argument of each operation. -/
structure Client where
  apiKey : String
deriving Repr, DecidableEq

def NewClient (apiKey : String) : Client := ⟨apiKey⟩

/-! ## Operations (client.go)

Each operation is split into the request-issuing part (`Client.X`, which
validates arguments, builds the request and returns the outcome together
with the list of issued requests) and the response-translation part
(`xResp`), mirroring the straight-line structure of the Go functions. -/

/-- Response translation for `Ping` (client.go:37): no status sentinels,
decode the heartbeat envelope, surface `errors.New(respData.Error)` when
`ok` is false. -/
def pingResp : Except String Response → Outcome Unit
  | Except.error e => Outcome.fail (SFError.transport e)
  | Except.ok resp =>
    match decodeHeartbeat resp.body with
    | none => Outcome.fail SFError.decodeErr
    | some d => if !d.OK then Outcome.fail (SFError.apiError d.Error) else Outcome.ok ()

/-- `Ping` (client.go:37): `GET {base}/heartbeat` with no headers set. -/
def Client.Ping (_api : Client) (t : Transport) : Outcome Unit × List Request :=
  let req : Request := { method := "GET", url := apiBaseURL ++ "/heartbeat", headers := [], body := none }
  (pingResp (t req), [req])

/-- Response translation for `PingVenue` (client.go:76): 500 → APITimeout,
404 → VenueNotFound, then envelope inspection.  No 401 sentinel. -/
def pingVenueResp (venue : String) : Except String Response → Outcome Unit
  | Except.error e => Outcome.fail (SFError.transport e)
  | Except.ok resp =>
    if resp.status = 500 then Outcome.fail SFError.apiTimeout
    else if resp.status = 404 then Outcome.fail (SFError.venueNotFound venue)
    else
      match decodeHeartbeat resp.body with
      | none => Outcome.fail SFError.decodeErr
      | some d => if !d.OK then Outcome.fail (SFError.apiError d.Error) else Outcome.ok ()

/-- `PingVenue` (client.go:64): trims the venue, panics when blank,
`GET {base}/venues/{venue}/heartbeat` with no headers set. -/
def Client.PingVenue (_api : Client) (t : Transport) (venue : String) : Outcome Unit × List Request :=
  let venue := trimSpace venue
  if venue = "" then (Outcome.panicked ("Invalid venue symbol: " ++ venue), [])
  else
    let req : Request := { method := "GET", url := apiBaseURL ++ "/venues/" ++ venue ++ "/heartbeat", headers := [], body := none }
    (pingVenueResp venue (t req), [req])

/-- Response translation for `ListStocks` (client.go:113): 401 →
Unauthorized, 404 → VenueNotFound, then envelope inspection. -/
def listStocksResp (venue : String) : Except String Response → Outcome (List StockInfo)
  | Except.error e => Outcome.fail (SFError.transport e)
  | Except.ok resp =>
    if resp.status = 401 then Outcome.fail SFError.unauthorized
    else if resp.status = 404 then Outcome.fail (SFError.venueNotFound venue)
    else
      match decodeStocks resp.body with
      | none => Outcome.fail SFError.decodeErr
      | some d => if !d.OK then Outcome.fail (SFError.apiError d.Error) else Outcome.ok d.Stocks

/-- `ListStocks` (client.go:101): trims the venue, panics when blank,
`GET {base}/venues/{venue}/stocks` with no headers set. -/
def Client.ListStocks (_api : Client) (t : Transport) (venue : String) : Outcome (List StockInfo) × List Request :=
  let venue := trimSpace venue
  if venue = "" then (Outcome.panicked ("Invalid venue symbol: " ++ venue), [])
  else
    let req : Request := { method := "GET", url := apiBaseURL ++ "/venues/" ++ venue ++ "/stocks", headers := [], body := none }
    (listStocksResp venue (t req), [req])

/-- Response translation for `GetOrderbook` (client.go:155): 401 →
Unauthorized, 404 → StockNotFound, then envelope inspection; the success
value copies `Bids`, `Asks` and `Timestamp` from the envelope. -/
def getOrderbookResp (venue stock : String) : Except String Response → Outcome Orderbook
  | Except.error e => Outcome.fail (SFError.transport e)
  | Except.ok resp =>
    if resp.status = 401 then Outcome.fail SFError.unauthorized
    else if resp.status = 404 then Outcome.fail (SFError.stockNotFound venue stock)
    else
      match decodeOrderbook resp.body with
      | none => Outcome.fail SFError.decodeErr
      | some d =>
        if !d.OK then Outcome.fail (SFError.apiError d.Error)
        else Outcome.ok { Bids := d.Bids, Asks := d.Asks, Timestamp := d.Timestamp }

/-- `GetOrderbook` (client.go:138): trims venue and stock, panics when
either is blank, `GET {base}/venues/{venue}/stocks/{stock}` with no
headers set. -/
def Client.GetOrderbook (_api : Client) (t : Transport) (venue stock : String) : Outcome Orderbook × List Request :=
  let venue := trimSpace venue
  if venue = "" then (Outcome.panicked ("Invalid venue symbol: " ++ venue), [])
  else
    let stock := trimSpace stock
    if stock = "" then (Outcome.panicked ("Invalid stock symbol: " ++ stock), [])
    else
      let req : Request := { method := "GET", url := apiBaseURL ++ "/venues/" ++ venue ++ "/stocks/" ++ stock, headers := [], body := none }
      (getOrderbookResp venue stock (t req), [req])

/-- The order-placement body (client.go:200): a `fmt.Sprintf` template with
raw string interpolation (no JSON escaping) and `%d` for the numbers. -/
def orderBodyStr (account venue stock : String) (price quantity : Nat) (direction orderType : String) : String :=
  "\x7b\n\t\t\t\"account\": \"" ++ account ++ "\",\n\t\t\t\"venue\": \"" ++ venue ++
  "\",\n\t\t\t\"stock\": \"" ++ stock ++ "\",\n\t\t\t\"price\": " ++ Nat.repr price ++
  ",\n\t\t\t\"qty\": " ++ Nat.repr quantity ++ ",\n\t\t\t\"direction\": \"" ++ direction ++
  "\",\n\t\t\t\"orderType\": \"" ++ orderType ++ "\"\n\t\t\x7d"

/-- Build the `OrderStatus` returned on success by `PlaceOrder`,
`GetOrder` and `CancelOrder`: every field is copied from the envelope. -/
def orderStatusOfEnv (d : ApiRespNewStockOrder) : OrderStatus :=
  { Direction := d.Direction
    OriginalQuantity := d.OriginalQuantity
    Quantity := d.Quantity
    Price := d.Price
    OrderType := d.OrderType
    OrderID := d.OrderID
    Account := d.Account
    Timestamp := d.Timestamp
    Fills := d.Fills
    TotalFilled := d.TotalFilled
    Open := d.Open }

/-- Response translation for `PlaceOrder` (client.go:224): 401 →
Unauthorized, 404 → StockNotFound, then envelope inspection. -/
def placeOrderResp (venue stock : String) : Except String Response → Outcome OrderStatus
  | Except.error e => Outcome.fail (SFError.transport e)
  | Except.ok resp =>
    if resp.status = 401 then Outcome.fail SFError.unauthorized
    else if resp.status = 404 then Outcome.fail (SFError.stockNotFound venue stock)
    else
      match decodeOrder resp.body with
      | none => Outcome.fail SFError.decodeErr
      | some d =>
        if !d.OK then Outcome.fail (SFError.apiError d.Error)
        else Outcome.ok (orderStatusOfEnv d)

/-- `PlaceOrder` (client.go:184): trims venue, stock and account in that
order, panicking at the first blank one; `POST
{base}/venues/{venue}/stocks/{stock}/orders` with the authorization and
content-type headers and the rendered JSON body. -/
def Client.PlaceOrder (api : Client) (t : Transport) (venue stock account : String)
    (price quantity : Nat) (direction orderType : String) : Outcome OrderStatus × List Request :=
  let venue := trimSpace venue
  if venue = "" then (Outcome.panicked ("Invalid venue symbol: " ++ venue), [])
  else
    let stock := trimSpace stock
    if stock = "" then (Outcome.panicked ("Invalid stock symbol: " ++ stock), [])
    else
      let account := trimSpace account
      if account = "" then (Outcome.panicked ("Invalid account name: " ++ account), [])
      else
        let req : Request :=
          { method := "POST"
            url := apiBaseURL ++ "/venues/" ++ venue ++ "/stocks/" ++ stock ++ "/orders"
            headers := [("X-Starfighter-Authorization", api.apiKey), ("Content-Type", "application/json")]
            body := some (orderBodyStr account venue stock price quantity direction orderType) }
        (placeOrderResp venue stock (t req), [req])

/-- Response translation for `GetQuote` (client.go:278): 401 →
Unauthorized, 404 → StockNotFound, then envelope inspection; the success
value copies every quote field from the envelope. -/
def getQuoteResp (venue stock : String) : Except String Response → Outcome StockQuote
  | Except.error e => Outcome.fail (SFError.transport e)
  | Except.ok resp =>
    if resp.status = 401 then Outcome.fail SFError.unauthorized
    else if resp.status = 404 then Outcome.fail (SFError.stockNotFound venue stock)
    else
      match decodeQuote resp.body with
      | none => Outcome.fail SFError.decodeErr
      | some d =>
        if !d.OK then Outcome.fail (SFError.apiError d.Error)
        else Outcome.ok
          { BidPrice := d.BidPrice
            BidSize := d.BidSize
            BidDepth := d.BidDepth
            AskPrice := d.AskPrice
            AskSize := d.AskSize
            AskDepth := d.AskDepth
            LastPrice := d.LastPrice
            LastSize := d.LastSize
            LastTradeTime := d.LastTradeTime
            QuoteTime := d.QuoteTime }

/-- `GetQuote` (client.go:261): trims venue and stock, panics when either
is blank, `GET {base}/venues/{venue}/stocks/{stock}/quote` with no headers
set. -/
def Client.GetQuote (_api : Client) (t : Transport) (venue stock : String) : Outcome StockQuote × List Request :=
  let venue := trimSpace venue
  if venue = "" then (Outcome.panicked ("Invalid venue symbol: " ++ venue), [])
  else
    let stock := trimSpace stock
    if stock = "" then (Outcome.panicked ("Invalid stock symbol: " ++ stock), [])
    else
      let req : Request := { method := "GET", url := apiBaseURL ++ "/venues/" ++ venue ++ "/stocks/" ++ stock ++ "/quote", headers := [], body := none }
      (getQuoteResp venue stock (t req), [req])

/-- Response translation for `GetOrder` (client.go:339): only the 401
sentinel, then envelope inspection. -/
def getOrderResp : Except String Response → Outcome OrderStatus
  | Except.error e => Outcome.fail (SFError.transport e)
  | Except.ok resp =>
    if resp.status = 401 then Outcome.fail SFError.unauthorized
    else
      match decodeOrder resp.body with
      | none => Outcome.fail SFError.decodeErr
      | some d =>
        if !d.OK then Outcome.fail (SFError.apiError d.Error)
        else Outcome.ok (orderStatusOfEnv d)

/-- `GetOrder` (client.go:314): trims venue and stock, panics when either
is blank, `GET {base}/venues/{venue}/stocks/{stock}/orders/{id}` with the
authorization header. -/
def Client.GetOrder (api : Client) (t : Transport) (venue stock : String) (orderID : Int) : Outcome OrderStatus × List Request :=
  let venue := trimSpace venue
  if venue = "" then (Outcome.panicked ("Invalid venue symbol: " ++ venue), [])
  else
    let stock := trimSpace stock
    if stock = "" then (Outcome.panicked ("Invalid stock symbol: " ++ stock), [])
    else
      let req : Request :=
        { method := "GET"
          url := apiBaseURL ++ "/venues/" ++ venue ++ "/stocks/" ++ stock ++ "/orders/" ++ Int.repr orderID
          headers := [("X-Starfighter-Authorization", api.apiKey)]
          body := none }
      (getOrderResp (t req), [req])

/-- Response translation for `CancelOrder` (client.go:399): 401 →
Unauthorized, 404 → StockNotFound, then envelope inspection. -/
def cancelOrderResp (venue stock : String) : Except String Response → Outcome OrderStatus
  | Except.error e => Outcome.fail (SFError.transport e)
  | Except.ok resp =>
    if resp.status = 401 then Outcome.fail SFError.unauthorized
    else if resp.status = 404 then Outcome.fail (SFError.stockNotFound venue stock)
    else
      match decodeOrder resp.body with
      | none => Outcome.fail SFError.decodeErr
      | some d =>
        if !d.OK then Outcome.fail (SFError.apiError d.Error)
        else Outcome.ok (orderStatusOfEnv d)

/-- `CancelOrder` (client.go:374): trims venue and stock, panics when
either is blank, `DELETE {base}/venues/{venue}/stocks/{stock}/orders/{id}`
with the authorization header. -/
def Client.CancelOrder (api : Client) (t : Transport) (venue stock : String) (orderID : Int) : Outcome OrderStatus × List Request :=
  let venue := trimSpace venue
  if venue = "" then (Outcome.panicked ("Invalid venue symbol: " ++ venue), [])
  else
    let stock := trimSpace stock
    if stock = "" then (Outcome.panicked ("Invalid stock symbol: " ++ stock), [])
    else
      let req : Request :=
        { method := "DELETE"
          url := apiBaseURL ++ "/venues/" ++ venue ++ "/stocks/" ++ stock ++ "/orders/" ++ Int.repr orderID
          headers := [("X-Starfighter-Authorization", api.apiKey)]
          body := none }
      (cancelOrderResp venue stock (t req), [req])

/-- Response translation for `GetAllOrders` (client.go:461): only the 401
sentinel, then envelope inspection; the success value is the decoded
order list. -/
def allOrdersResp : Except String Response → Outcome (List OrderStatus)
  | Except.error e => Outcome.fail (SFError.transport e)
  | Except.ok resp =>
    if resp.status = 401 then Outcome.fail SFError.unauthorized
    else
      match decodeAllOrders resp.body with
      | none => Outcome.fail SFError.decodeErr
      | some d =>
        if !d.OK then Outcome.fail (SFError.apiError d.Error)
        else Outcome.ok d.Orders

/-- `GetAllOrders` (client.go:436): trims venue and account in that order,
panicking at the first blank one, `GET
{base}/venues/{venue}/accounts/{account}/orders` with the authorization
header. -/
def Client.GetAllOrders (api : Client) (t : Transport) (venue account : String) : Outcome (List OrderStatus) × List Request :=
  let venue := trimSpace venue
  if venue = "" then (Outcome.panicked ("Invalid venue symbol: " ++ venue), [])
  else
    let account := trimSpace account
    if account = "" then (Outcome.panicked ("Invalid account name: " ++ account), [])
    else
      let req : Request :=
        { method := "GET"
          url := apiBaseURL ++ "/venues/" ++ venue ++ "/accounts/" ++ account ++ "/orders"
          headers := [("X-Starfighter-Authorization", api.apiKey)]
          body := none }
      (allOrdersResp (t req), [req])

/-- `GetStockOrders` (client.go:484): trims venue, account and stock in
that order, panicking at the first blank one, `GET
{base}/venues/{venue}/accounts/{account}/stocks/{stock}/orders` with the
authorization header; response translation is identical to
`GetAllOrders` (client.go:514 checks only 401). -/
def Client.GetStockOrders (api : Client) (t : Transport) (venue account stock : String) : Outcome (List OrderStatus) × List Request :=
  let venue := trimSpace venue
  if venue = "" then (Outcome.panicked ("Invalid venue symbol: " ++ venue), [])
  else
    let account := trimSpace account
    if account = "" then (Outcome.panicked ("Invalid account name: " ++ account), [])
    else
      let stock := trimSpace stock
      if stock = "" then (Outcome.panicked ("Invalid stock symbol: " ++ stock), [])
      else
        let req : Request :=
          { method := "GET"
            url := apiBaseURL ++ "/venues/" ++ venue ++ "/accounts/" ++ account ++ "/stocks/" ++ stock ++ "/orders"
            headers := [("X-Starfighter-Authorization", api.apiKey)]
            body := none }
        (allOrdersResp (t req), [req])

/-- Characters that pass through both the `fmt.Sprintf` template (which
applies no JSON escaping) and a JSON string literal unchanged: not a
double quote, not a backslash, not a control character. -/
def cleanChar (c : Char) : Bool :=
  if c = '\"' then false
  else if c = '\\' then false
  else if c.toNat < 32 then false
  else true

def cleanStr (s : String) : Bool := s.data.all cleanChar

/-- The ten decimal digit characters. -/
def digitChars : List Char := ['0', '1', '2', '3', '4', '5', '6', '7', '8', '9']

/-! ## Claim theorems -/

/-- C1: for every operation and every status code the source lists as a
sentinel for it (the per-operation sentinel table: 401 for the
header-authenticated and stock/venue query operations that check it, 404
for the venue-scoped `PingVenue`/`ListStocks` and the stock-scoped
`GetOrderbook`/`PlaceOrder`/`GetQuote`/`CancelOrder`, 500 for the venue
heartbeat), a response with that status yields the corresponding typed
error for every body whatsoever — absent, non-JSON or off-schema — so the
body is never decoded on a sentinel status. -/
theorem c1_sentinel_statuses_bypass_body :
    (∀ api venue body, trimSpace venue ≠ "" →
      (Client.PingVenue api (mkT ⟨500, body⟩) venue).1 = Outcome.fail SFError.apiTimeout) ∧
    (∀ api venue body, trimSpace venue ≠ "" →
      (Client.PingVenue api (mkT ⟨404, body⟩) venue).1 =
        Outcome.fail (SFError.venueNotFound (trimSpace venue))) ∧
    (∀ api venue body, trimSpace venue ≠ "" →
      (Client.ListStocks api (mkT ⟨401, body⟩) venue).1 = Outcome.fail SFError.unauthorized) ∧
    (∀ api venue body, trimSpace venue ≠ "" →
      (Client.ListStocks api (mkT ⟨404, body⟩) venue).1 =
        Outcome.fail (SFError.venueNotFound (trimSpace venue))) ∧
    (∀ api venue stock body, trimSpace venue ≠ "" → trimSpace stock ≠ "" →
      (Client.GetOrderbook api (mkT ⟨401, body⟩) venue stock).1 = Outcome.fail SFError.unauthorized) ∧
    (∀ api venue stock body, trimSpace venue ≠ "" → trimSpace stock ≠ "" →
      (Client.GetOrderbook api (mkT ⟨404, body⟩) venue stock).1 =
        Outcome.fail (SFError.stockNotFound (trimSpace venue) (trimSpace stock))) ∧
    (∀ api venue stock account price qty dir typ body,
      trimSpace venue ≠ "" → trimSpace stock ≠ "" → trimSpace account ≠ "" →
      (Client.PlaceOrder api (mkT ⟨401, body⟩) venue stock account price qty dir typ).1 =
        Outcome.fail SFError.unauthorized) ∧
    (∀ api venue stock account price qty dir typ body,
      trimSpace venue ≠ "" → trimSpace stock ≠ "" → trimSpace account ≠ "" →
      (Client.PlaceOrder api (mkT ⟨404, body⟩) venue stock account price qty dir typ).1 =
        Outcome.fail (SFError.stockNotFound (trimSpace venue) (trimSpace stock))) ∧
    (∀ api venue stock body, trimSpace venue ≠ "" → trimSpace stock ≠ "" →
      (Client.GetQuote api (mkT ⟨401, body⟩) venue stock).1 = Outcome.fail SFError.unauthorized) ∧
    (∀ api venue stock body, trimSpace venue ≠ "" → trimSpace stock ≠ "" →
      (Client.GetQuote api (mkT ⟨404, body⟩) venue stock).1 =
        Outcome.fail (SFError.stockNotFound (trimSpace venue) (trimSpace stock))) ∧
    (∀ api venue stock oid body, trimSpace venue ≠ "" → trimSpace stock ≠ "" →
      (Client.GetOrder api (mkT ⟨401, body⟩) venue stock oid).1 = Outcome.fail SFError.unauthorized) ∧
    (∀ api venue stock oid body, trimSpace venue ≠ "" → trimSpace stock ≠ "" →
      (Client.CancelOrder api (mkT ⟨401, body⟩) venue stock oid).1 = Outcome.fail SFError.unauthorized) ∧
    (∀ api venue stock oid body, trimSpace venue ≠ "" → trimSpace stock ≠ "" →
      (Client.CancelOrder api (mkT ⟨404, body⟩) venue stock oid).1 =
        Outcome.fail (SFError.stockNotFound (trimSpace venue) (trimSpace stock))) ∧
    (∀ api venue account body, trimSpace venue ≠ "" → trimSpace account ≠ "" →
      (Client.GetAllOrders api (mkT ⟨401, body⟩) venue account).1 = Outcome.fail SFError.unauthorized) ∧
    (∀ api venue account stock body,
      trimSpace venue ≠ "" → trimSpace account ≠ "" → trimSpace stock ≠ "" →
      (Client.GetStockOrders api (mkT ⟨401, body⟩) venue account stock).1 =
        Outcome.fail SFError.unauthorized) := by
  refine ⟨?_, ?_, ?_, ?_, ?_, ?_, ?_, ?_, ?_, ?_, ?_, ?_, ?_, ?_, ?_⟩
  · intro api venue body h
    simp [Client.PingVenue, mkT, pingVenueResp, h]
  · intro api venue body h
    simp [Client.PingVenue, mkT, pingVenueResp, h]
  · intro api venue body h
    simp [Client.ListStocks, mkT, listStocksResp, h]
  · intro api venue body h
    simp [Client.ListStocks, mkT, listStocksResp, h]
  · intro api venue stock body h1 h2
    simp [Client.GetOrderbook, mkT, getOrderbookResp, h1, h2]
  · intro api venue stock body h1 h2
    simp [Client.GetOrderbook, mkT, getOrderbookResp, h1, h2]
  · intro api venue stock account price qty dir typ body h1 h2 h3
    simp [Client.PlaceOrder, mkT, placeOrderResp, h1, h2, h3]
  · intro api venue stock account price qty dir typ body h1 h2 h3
    simp [Client.PlaceOrder, mkT, placeOrderResp, h1, h2, h3]
  · intro api venue stock body h1 h2
    simp [Client.GetQuote, mkT, getQuoteResp, h1, h2]
  · intro api venue stock body h1 h2
    simp [Client.GetQuote, mkT, getQuoteResp, h1, h2]
  · intro api venue stock oid body h1 h2
    simp [Client.GetOrder, mkT, getOrderResp, h1, h2]
  · intro api venue stock oid body h1 h2
    simp [Client.CancelOrder, mkT, cancelOrderResp, h1, h2]
  · intro api venue stock oid body h1 h2
    simp [Client.CancelOrder, mkT, cancelOrderResp, h1, h2]
  · intro api venue account body h1 h2
    simp [Client.GetAllOrders, mkT, allOrdersResp, h1, h2]
  · intro api venue account stock body h1 h2 h3
    simp [Client.GetStockOrders, mkT, allOrdersResp, h1, h2, h3]

/-- Witness for C1: the sentinel classifications at concrete inputs, with a
body that is not JSON at all. -/
theorem c1_witness :
    (Client.PingVenue ⟨"key"⟩ (mkT ⟨500, "not json"⟩) "TESTEX").1 = Outcome.fail SFError.apiTimeout ∧
    (Client.ListStocks ⟨"key"⟩ (mkT ⟨404, "not json"⟩) "TESTEX").1 =
      Outcome.fail (SFError.venueNotFound "TESTEX") ∧
    (Client.PlaceOrder ⟨"key"⟩ (mkT ⟨404, "not json"⟩) "TESTEX" "FOOBAR" "EXB123456" 5264 4625 "buy" "limit").1 =
      Outcome.fail (SFError.stockNotFound "TESTEX" "FOOBAR") ∧
    (Client.GetAllOrders ⟨"key"⟩ (mkT ⟨401, "not json"⟩) "TESTEX" "EXB123456").1 =
      Outcome.fail SFError.unauthorized :=
  ⟨c1_sentinel_statuses_bypass_body.1 ⟨"key"⟩ "TESTEX" "not json" (by decide),
   c1_sentinel_statuses_bypass_body.2.2.2.1 ⟨"key"⟩ "TESTEX" "not json" (by decide),
   (c1_sentinel_statuses_bypass_body.2.2.2.2.2.2.2.1 ⟨"key"⟩ "TESTEX" "FOOBAR" "EXB123456"
      5264 4625 "buy" "limit" "not json" (by decide) (by decide) (by decide)),
   (c1_sentinel_statuses_bypass_body.2.2.2.2.2.2.2.2.2.2.2.2.2.1 ⟨"key"⟩ "TESTEX" "EXB123456"
      "not json" (by decide) (by decide))⟩

/-- C2 counterexample: the claim says every request except the global
heartbeat carries `X-Starfighter-Authorization`, but `ListStocks` issues
its request through `httpClient.Get` without setting any header — the one
request of this concrete call has an empty header list. -/
theorem c2_counterexample :
    ((Client.ListStocks ⟨"key"⟩ (mkT ⟨200, ""⟩) "TESTEX").2.map Request.headers) = [[]] := by
  decide

/-- C2 amended: only the operations built with `http.NewRequest` —
`PlaceOrder`, `GetOrder`, `CancelOrder`, `GetAllOrders`, `GetStockOrders` —
send `X-Starfighter-Authorization: <api key>`; `Ping`, `PingVenue`,
`ListStocks`, `GetOrderbook` and `GetQuote` use `httpClient.Get` and set no
headers at all. -/
theorem c2_auth_header_amended :
    (∀ api t venue stock account price qty dir typ,
      ∀ r ∈ (Client.PlaceOrder api t venue stock account price qty dir typ).2,
        ("X-Starfighter-Authorization", api.apiKey) ∈ r.headers) ∧
    (∀ api t venue stock oid, ∀ r ∈ (Client.GetOrder api t venue stock oid).2,
      ("X-Starfighter-Authorization", api.apiKey) ∈ r.headers) ∧
    (∀ api t venue stock oid, ∀ r ∈ (Client.CancelOrder api t venue stock oid).2,
      ("X-Starfighter-Authorization", api.apiKey) ∈ r.headers) ∧
    (∀ api t venue account, ∀ r ∈ (Client.GetAllOrders api t venue account).2,
      ("X-Starfighter-Authorization", api.apiKey) ∈ r.headers) ∧
    (∀ api t venue account stock, ∀ r ∈ (Client.GetStockOrders api t venue account stock).2,
      ("X-Starfighter-Authorization", api.apiKey) ∈ r.headers) ∧
    (∀ api t, ∀ r ∈ (Client.Ping api t).2, r.headers = []) ∧
    (∀ api t venue, ∀ r ∈ (Client.PingVenue api t venue).2, r.headers = []) ∧
    (∀ api t venue, ∀ r ∈ (Client.ListStocks api t venue).2, r.headers = []) ∧
    (∀ api t venue stock, ∀ r ∈ (Client.GetOrderbook api t venue stock).2, r.headers = []) ∧
    (∀ api t venue stock, ∀ r ∈ (Client.GetQuote api t venue stock).2, r.headers = []) := by
  refine ⟨?_, ?_, ?_, ?_, ?_, ?_, ?_, ?_, ?_, ?_⟩
  · intro api t venue stock account price qty dir typ
    by_cases h1 : trimSpace venue = "" <;> by_cases h2 : trimSpace stock = "" <;>
      by_cases h3 : trimSpace account = "" <;> simp [Client.PlaceOrder, h1, h2, h3]
  · intro api t venue stock oid
    by_cases h1 : trimSpace venue = "" <;> by_cases h2 : trimSpace stock = "" <;>
      simp [Client.GetOrder, h1, h2]
  · intro api t venue stock oid
    by_cases h1 : trimSpace venue = "" <;> by_cases h2 : trimSpace stock = "" <;>
      simp [Client.CancelOrder, h1, h2]
  · intro api t venue account
    by_cases h1 : trimSpace venue = "" <;> by_cases h2 : trimSpace account = "" <;>
      simp [Client.GetAllOrders, h1, h2]
  · intro api t venue account stock
    by_cases h1 : trimSpace venue = "" <;> by_cases h2 : trimSpace account = "" <;>
      by_cases h3 : trimSpace stock = "" <;> simp [Client.GetStockOrders, h1, h2, h3]
  · intro api t
    simp [Client.Ping]
  · intro api t venue
    by_cases h1 : trimSpace venue = "" <;> simp [Client.PingVenue, h1]
  · intro api t venue
    by_cases h1 : trimSpace venue = "" <;> simp [Client.ListStocks, h1]
  · intro api t venue stock
    by_cases h1 : trimSpace venue = "" <;> by_cases h2 : trimSpace stock = "" <;>
      simp [Client.GetOrderbook, h1, h2]
  · intro api t venue stock
    by_cases h1 : trimSpace venue = "" <;> by_cases h2 : trimSpace stock = "" <;>
      simp [Client.GetQuote, h1, h2]

/-- Witness for C2 (amended): at a concrete call, the one request issued by
`PlaceOrder` carries the authorization header. -/
theorem c2_witness :
    ("X-Starfighter-Authorization", "key") ∈
      (Request.headers
        { method := "POST",
          url := apiBaseURL ++ "/venues/TESTEX/stocks/FOOBAR/orders",
          headers := [("X-Starfighter-Authorization", "key"), ("Content-Type", "application/json")],
          body := some (orderBodyStr "EXB123456" "TESTEX" "FOOBAR" 5264 4625 "buy" "limit") }) :=
  c2_auth_header_amended.1 ⟨"key"⟩ (mkT ⟨200, ""⟩) "TESTEX" "FOOBAR" "EXB123456" 5264 4625
    "buy" "limit" _ (by decide)

/-- C3 counterexample: the claim includes `Ping` and `PingVenue`, but
neither checks the 401 status.  `Ping` on a 401 with an empty body surfaces
the JSON decode failure (`io.EOF`), and `PingVenue` on a 401 with an
`ok:false` envelope surfaces the envelope error — neither is
`Unauthorized`. -/
theorem c3_counterexample :
    (Client.Ping ⟨"key"⟩ (mkT ⟨401, ""⟩)).1 = Outcome.fail SFError.decodeErr ∧
    (Client.Ping ⟨"key"⟩ (mkT ⟨401, ""⟩)).1 ≠ Outcome.fail SFError.unauthorized ∧
    (Client.PingVenue ⟨"key"⟩ (mkT ⟨401, "\x7b\"ok\": false, \"error\": \"boom\"\x7d"⟩) "TESTEX").1 =
      Outcome.fail (SFError.apiError "boom") := by
  refine ⟨by decide, by decide, by decide⟩

/-- C3 amended: every operation except `Ping` and `PingVenue` (which have
no 401 sentinel and fall through to envelope decoding) returns
`Unauthorized` on a 401 response regardless of the body. -/
theorem c3_unauthorized_amended :
    (∀ api venue body, trimSpace venue ≠ "" →
      (Client.ListStocks api (mkT ⟨401, body⟩) venue).1 = Outcome.fail SFError.unauthorized) ∧
    (∀ api venue stock body, trimSpace venue ≠ "" → trimSpace stock ≠ "" →
      (Client.GetOrderbook api (mkT ⟨401, body⟩) venue stock).1 = Outcome.fail SFError.unauthorized) ∧
    (∀ api venue stock account price qty dir typ body,
      trimSpace venue ≠ "" → trimSpace stock ≠ "" → trimSpace account ≠ "" →
      (Client.PlaceOrder api (mkT ⟨401, body⟩) venue stock account price qty dir typ).1 =
        Outcome.fail SFError.unauthorized) ∧
    (∀ api venue stock body, trimSpace venue ≠ "" → trimSpace stock ≠ "" →
      (Client.GetQuote api (mkT ⟨401, body⟩) venue stock).1 = Outcome.fail SFError.unauthorized) ∧
    (∀ api venue stock oid body, trimSpace venue ≠ "" → trimSpace stock ≠ "" →
      (Client.GetOrder api (mkT ⟨401, body⟩) venue stock oid).1 = Outcome.fail SFError.unauthorized) ∧
    (∀ api venue stock oid body, trimSpace venue ≠ "" → trimSpace stock ≠ "" →
      (Client.CancelOrder api (mkT ⟨401, body⟩) venue stock oid).1 = Outcome.fail SFError.unauthorized) ∧
    (∀ api venue account body, trimSpace venue ≠ "" → trimSpace account ≠ "" →
      (Client.GetAllOrders api (mkT ⟨401, body⟩) venue account).1 = Outcome.fail SFError.unauthorized) ∧
    (∀ api venue account stock body,
      trimSpace venue ≠ "" → trimSpace account ≠ "" → trimSpace stock ≠ "" →
      (Client.GetStockOrders api (mkT ⟨401, body⟩) venue account stock).1 =
        Outcome.fail SFError.unauthorized) := by
  refine ⟨?_, ?_, ?_, ?_, ?_, ?_, ?_, ?_⟩
  · intro api venue body h
    simp [Client.ListStocks, mkT, listStocksResp, h]
  · intro api venue stock body h1 h2
    simp [Client.GetOrderbook, mkT, getOrderbookResp, h1, h2]
  · intro api venue stock account price qty dir typ body h1 h2 h3
    simp [Client.PlaceOrder, mkT, placeOrderResp, h1, h2, h3]
  · intro api venue stock body h1 h2
    simp [Client.GetQuote, mkT, getQuoteResp, h1, h2]
  · intro api venue stock oid body h1 h2
    simp [Client.GetOrder, mkT, getOrderResp, h1, h2]
  · intro api venue stock oid body h1 h2
    simp [Client.CancelOrder, mkT, cancelOrderResp, h1, h2]
  · intro api venue account body h1 h2
    simp [Client.GetAllOrders, mkT, allOrdersResp, h1, h2]
  · intro api venue account stock body h1 h2 h3
    simp [Client.GetStockOrders, mkT, allOrdersResp, h1, h2, h3]

/-- Witness for C3 (amended): 401 with an empty (undecodable) body at
concrete inputs. -/
theorem c3_witness :
    (Client.ListStocks ⟨"key"⟩ (mkT ⟨401, ""⟩) "TESTEX").1 = Outcome.fail SFError.unauthorized ∧
    (Client.GetOrder ⟨"key"⟩ (mkT ⟨401, ""⟩) "TESTEX" "FOOBAR" 12345).1 =
      Outcome.fail SFError.unauthorized :=
  ⟨c3_unauthorized_amended.1 ⟨"key"⟩ "TESTEX" "" (by decide),
   c3_unauthorized_amended.2.2.2.2.1 ⟨"key"⟩ "TESTEX" "FOOBAR" 12345 "" (by decide) (by decide)⟩

/-- C4: 404 is classified by scope — `VenueNotFound` with the requested
(trimmed) venue for `PingVenue`/`ListStocks`, `StockNotFound` with venue
and stock for `GetOrderbook`/`PlaceOrder`/`GetQuote`/`CancelOrder` — and
500 is `APITimeout` only on `PingVenue`: every other operation handles a
500 exactly as it handles a 200, i.e. by envelope inspection. -/
theorem c4_notfound_classification :
    (∀ api venue body, trimSpace venue ≠ "" →
      (Client.PingVenue api (mkT ⟨404, body⟩) venue).1 =
        Outcome.fail (SFError.venueNotFound (trimSpace venue))) ∧
    (∀ api venue body, trimSpace venue ≠ "" →
      (Client.ListStocks api (mkT ⟨404, body⟩) venue).1 =
        Outcome.fail (SFError.venueNotFound (trimSpace venue))) ∧
    (∀ api venue stock body, trimSpace venue ≠ "" → trimSpace stock ≠ "" →
      (Client.GetOrderbook api (mkT ⟨404, body⟩) venue stock).1 =
        Outcome.fail (SFError.stockNotFound (trimSpace venue) (trimSpace stock))) ∧
    (∀ api venue stock account price qty dir typ body,
      trimSpace venue ≠ "" → trimSpace stock ≠ "" → trimSpace account ≠ "" →
      (Client.PlaceOrder api (mkT ⟨404, body⟩) venue stock account price qty dir typ).1 =
        Outcome.fail (SFError.stockNotFound (trimSpace venue) (trimSpace stock))) ∧
    (∀ api venue stock body, trimSpace venue ≠ "" → trimSpace stock ≠ "" →
      (Client.GetQuote api (mkT ⟨404, body⟩) venue stock).1 =
        Outcome.fail (SFError.stockNotFound (trimSpace venue) (trimSpace stock))) ∧
    (∀ api venue stock oid body, trimSpace venue ≠ "" → trimSpace stock ≠ "" →
      (Client.CancelOrder api (mkT ⟨404, body⟩) venue stock oid).1 =
        Outcome.fail (SFError.stockNotFound (trimSpace venue) (trimSpace stock))) ∧
    (∀ api venue body, trimSpace venue ≠ "" →
      (Client.PingVenue api (mkT ⟨500, body⟩) venue).1 = Outcome.fail SFError.apiTimeout) ∧
    (∀ api body,
      (Client.Ping api (mkT ⟨500, body⟩)).1 = (Client.Ping api (mkT ⟨200, body⟩)).1) ∧
    (∀ api venue body, trimSpace venue ≠ "" →
      (Client.ListStocks api (mkT ⟨500, body⟩) venue).1 =
        (Client.ListStocks api (mkT ⟨200, body⟩) venue).1) ∧
    (∀ api venue stock body, trimSpace venue ≠ "" → trimSpace stock ≠ "" →
      (Client.GetOrderbook api (mkT ⟨500, body⟩) venue stock).1 =
        (Client.GetOrderbook api (mkT ⟨200, body⟩) venue stock).1) ∧
    (∀ api venue stock account price qty dir typ body,
      trimSpace venue ≠ "" → trimSpace stock ≠ "" → trimSpace account ≠ "" →
      (Client.PlaceOrder api (mkT ⟨500, body⟩) venue stock account price qty dir typ).1 =
        (Client.PlaceOrder api (mkT ⟨200, body⟩) venue stock account price qty dir typ).1) ∧
    (∀ api venue stock body, trimSpace venue ≠ "" → trimSpace stock ≠ "" →
      (Client.GetQuote api (mkT ⟨500, body⟩) venue stock).1 =
        (Client.GetQuote api (mkT ⟨200, body⟩) venue stock).1) ∧
    (∀ api venue stock oid body, trimSpace venue ≠ "" → trimSpace stock ≠ "" →
      (Client.GetOrder api (mkT ⟨500, body⟩) venue stock oid).1 =
        (Client.GetOrder api (mkT ⟨200, body⟩) venue stock oid).1) ∧
    (∀ api venue stock oid body, trimSpace venue ≠ "" → trimSpace stock ≠ "" →
      (Client.CancelOrder api (mkT ⟨500, body⟩) venue stock oid).1 =
        (Client.CancelOrder api (mkT ⟨200, body⟩) venue stock oid).1) ∧
    (∀ api venue account body, trimSpace venue ≠ "" → trimSpace account ≠ "" →
      (Client.GetAllOrders api (mkT ⟨500, body⟩) venue account).1 =
        (Client.GetAllOrders api (mkT ⟨200, body⟩) venue account).1) ∧
    (∀ api venue account stock body,
      trimSpace venue ≠ "" → trimSpace account ≠ "" → trimSpace stock ≠ "" →
      (Client.GetStockOrders api (mkT ⟨500, body⟩) venue account stock).1 =
        (Client.GetStockOrders api (mkT ⟨200, body⟩) venue account stock).1) := by
  refine ⟨?_, ?_, ?_, ?_, ?_, ?_, ?_, ?_, ?_, ?_, ?_, ?_, ?_, ?_, ?_, ?_⟩
  · intro api venue body h
    simp [Client.PingVenue, mkT, pingVenueResp, h]
  · intro api venue body h
    simp [Client.ListStocks, mkT, listStocksResp, h]
  · intro api venue stock body h1 h2
    simp [Client.GetOrderbook, mkT, getOrderbookResp, h1, h2]
  · intro api venue stock account price qty dir typ body h1 h2 h3
    simp [Client.PlaceOrder, mkT, placeOrderResp, h1, h2, h3]
  · intro api venue stock body h1 h2
    simp [Client.GetQuote, mkT, getQuoteResp, h1, h2]
  · intro api venue stock oid body h1 h2
    simp [Client.CancelOrder, mkT, cancelOrderResp, h1, h2]
  · intro api venue body h
    simp [Client.PingVenue, mkT, pingVenueResp, h]
  · intro api body
    simp [Client.Ping, mkT, pingResp]
  · intro api venue body h
    simp [Client.ListStocks, mkT, listStocksResp, h]
  · intro api venue stock body h1 h2
    simp [Client.GetOrderbook, mkT, getOrderbookResp, h1, h2]
  · intro api venue stock account price qty dir typ body h1 h2 h3
    simp [Client.PlaceOrder, mkT, placeOrderResp, h1, h2, h3]
  · intro api venue stock body h1 h2
    simp [Client.GetQuote, mkT, getQuoteResp, h1, h2]
  · intro api venue stock oid body h1 h2
    simp [Client.GetOrder, mkT, getOrderResp, h1, h2]
  · intro api venue stock oid body h1 h2
    simp [Client.CancelOrder, mkT, cancelOrderResp, h1, h2]
  · intro api venue account body h1 h2
    simp [Client.GetAllOrders, mkT, allOrdersResp, h1, h2]
  · intro api venue account stock body h1 h2 h3
    simp [Client.GetStockOrders, mkT, allOrdersResp, h1, h2, h3]

/-- Witness for C4: concrete 404 classifications and a concrete
500-fallthrough (a 500 with an `ok:false` envelope surfaces the envelope
error on `ListStocks`). -/
theorem c4_witness :
    (Client.PingVenue ⟨"key"⟩ (mkT ⟨404, ""⟩) " TESTEX ").1 =
      Outcome.fail (SFError.venueNotFound "TESTEX") ∧
    (Client.GetOrderbook ⟨"key"⟩ (mkT ⟨404, ""⟩) "TESTEX" "FOOBAR").1 =
      Outcome.fail (SFError.stockNotFound "TESTEX" "FOOBAR") ∧
    (Client.ListStocks ⟨"key"⟩ (mkT ⟨500, "\x7b\"ok\": false, \"error\": \"boom\"\x7d"⟩) "TESTEX").1 =
      (Client.ListStocks ⟨"key"⟩ (mkT ⟨200, "\x7b\"ok\": false, \"error\": \"boom\"\x7d"⟩) "TESTEX").1 :=
  ⟨c4_notfound_classification.1 ⟨"key"⟩ " TESTEX " "" (by decide),
   c4_notfound_classification.2.2.1 ⟨"key"⟩ "TESTEX" "FOOBAR" "" (by decide) (by decide),
   (c4_notfound_classification.2.2.2.2.2.2.2.2.1 ⟨"key"⟩ "TESTEX"
      "\x7b\"ok\": false, \"error\": \"boom\"\x7d" (by decide))⟩

/-- C5 counterexample: a blank identifier does not produce any typed
failure return — the source `panic`s.  With a whitespace-only venue,
`PingVenue` ends in the `panicked` outcome (not a `fail`) and issues zero
requests. -/
theorem c5_counterexample :
    Client.PingVenue ⟨"key"⟩ (mkT ⟨200, ""⟩) " " =
      (Outcome.panicked "Invalid venue symbol: ", []) := by
  decide

/-- C5 amended: a blank (after trimming) required identifier makes the call
panic synchronously with the corresponding `Invalid … :` message, before
any request is issued (the issued-request list is empty); identifiers are
checked in the source's order (venue, then stock/account). -/
theorem c5_blank_panics_amended :
    (∀ api t venue, trimSpace venue = "" →
      Client.PingVenue api t venue = (Outcome.panicked "Invalid venue symbol: ", [])) ∧
    (∀ api t venue, trimSpace venue = "" →
      Client.ListStocks api t venue = (Outcome.panicked "Invalid venue symbol: ", [])) ∧
    (∀ api t venue stock, trimSpace venue = "" →
      Client.GetOrderbook api t venue stock = (Outcome.panicked "Invalid venue symbol: ", [])) ∧
    (∀ api t venue stock, trimSpace venue ≠ "" → trimSpace stock = "" →
      Client.GetOrderbook api t venue stock = (Outcome.panicked "Invalid stock symbol: ", [])) ∧
    (∀ api t venue stock account price qty dir typ, trimSpace venue = "" →
      Client.PlaceOrder api t venue stock account price qty dir typ =
        (Outcome.panicked "Invalid venue symbol: ", [])) ∧
    (∀ api t venue stock account price qty dir typ,
      trimSpace venue ≠ "" → trimSpace stock = "" →
      Client.PlaceOrder api t venue stock account price qty dir typ =
        (Outcome.panicked "Invalid stock symbol: ", [])) ∧
    (∀ api t venue stock account price qty dir typ,
      trimSpace venue ≠ "" → trimSpace stock ≠ "" → trimSpace account = "" →
      Client.PlaceOrder api t venue stock account price qty dir typ =
        (Outcome.panicked "Invalid account name: ", [])) ∧
    (∀ api t venue stock, trimSpace venue = "" →
      Client.GetQuote api t venue stock = (Outcome.panicked "Invalid venue symbol: ", [])) ∧
    (∀ api t venue stock, trimSpace venue ≠ "" → trimSpace stock = "" →
      Client.GetQuote api t venue stock = (Outcome.panicked "Invalid stock symbol: ", [])) ∧
    (∀ api t venue stock oid, trimSpace venue = "" →
      Client.GetOrder api t venue stock oid = (Outcome.panicked "Invalid venue symbol: ", [])) ∧
    (∀ api t venue stock oid, trimSpace venue ≠ "" → trimSpace stock = "" →
      Client.GetOrder api t venue stock oid = (Outcome.panicked "Invalid stock symbol: ", [])) ∧
    (∀ api t venue stock oid, trimSpace venue = "" →
      Client.CancelOrder api t venue stock oid = (Outcome.panicked "Invalid venue symbol: ", [])) ∧
    (∀ api t venue stock oid, trimSpace venue ≠ "" → trimSpace stock = "" →
      Client.CancelOrder api t venue stock oid = (Outcome.panicked "Invalid stock symbol: ", [])) ∧
    (∀ api t venue account, trimSpace venue = "" →
      Client.GetAllOrders api t venue account = (Outcome.panicked "Invalid venue symbol: ", [])) ∧
    (∀ api t venue account, trimSpace venue ≠ "" → trimSpace account = "" →
      Client.GetAllOrders api t venue account = (Outcome.panicked "Invalid account name: ", [])) ∧
    (∀ api t venue account stock, trimSpace venue = "" →
      Client.GetStockOrders api t venue account stock =
        (Outcome.panicked "Invalid venue symbol: ", [])) ∧
    (∀ api t venue account stock, trimSpace venue ≠ "" → trimSpace account = "" →
      Client.GetStockOrders api t venue account stock =
        (Outcome.panicked "Invalid account name: ", [])) ∧
    (∀ api t venue account stock,
      trimSpace venue ≠ "" → trimSpace account ≠ "" → trimSpace stock = "" →
      Client.GetStockOrders api t venue account stock =
        (Outcome.panicked "Invalid stock symbol: ", [])) := by
  refine ⟨?_, ?_, ?_, ?_, ?_, ?_, ?_, ?_, ?_, ?_, ?_, ?_, ?_, ?_, ?_, ?_, ?_, ?_⟩
  · intro api t venue h
    simp [Client.PingVenue, h]
  · intro api t venue h
    simp [Client.ListStocks, h]
  · intro api t venue stock h
    simp [Client.GetOrderbook, h]
  · intro api t venue stock h1 h2
    simp [Client.GetOrderbook, h1, h2]
  · intro api t venue stock account price qty dir typ h
    simp [Client.PlaceOrder, h]
  · intro api t venue stock account price qty dir typ h1 h2
    simp [Client.PlaceOrder, h1, h2]
  · intro api t venue stock account price qty dir typ h1 h2 h3
    simp [Client.PlaceOrder, h1, h2, h3]
  · intro api t venue stock h
    simp [Client.GetQuote, h]
  · intro api t venue stock h1 h2
    simp [Client.GetQuote, h1, h2]
  · intro api t venue stock oid h
    simp [Client.GetOrder, h]
  · intro api t venue stock oid h1 h2
    simp [Client.GetOrder, h1, h2]
  · intro api t venue stock oid h
    simp [Client.CancelOrder, h]
  · intro api t venue stock oid h1 h2
    simp [Client.CancelOrder, h1, h2]
  · intro api t venue account h
    simp [Client.GetAllOrders, h]
  · intro api t venue account h1 h2
    simp [Client.GetAllOrders, h1, h2]
  · intro api t venue account stock h
    simp [Client.GetStockOrders, h]
  · intro api t venue account stock h1 h2
    simp [Client.GetStockOrders, h1, h2]
  · intro api t venue account stock h1 h2 h3
    simp [Client.GetStockOrders, h1, h2, h3]

/-- Witness for C5 (amended): blank and whitespace-only identifiers at
concrete inputs panic with zero issued requests. -/
theorem c5_witness :
    Client.ListStocks ⟨"key"⟩ (mkT ⟨200, ""⟩) "" = (Outcome.panicked "Invalid venue symbol: ", []) ∧
    Client.PlaceOrder ⟨"key"⟩ (mkT ⟨200, ""⟩) "TESTEX" "\t " "EXB123456" 5264 4625 "buy" "limit" =
      (Outcome.panicked "Invalid stock symbol: ", []) :=
  ⟨c5_blank_panics_amended.2.1 ⟨"key"⟩ (mkT ⟨200, ""⟩) "" (by decide),
   (c5_blank_panics_amended.2.2.2.2.2.1 ⟨"key"⟩ (mkT ⟨200, ""⟩) "TESTEX" "\t " "EXB123456"
      5264 4625 "buy" "limit" (by decide) (by decide))⟩

/-- C6: whenever a response reaches envelope inspection (its status matches
none of the operation's sentinels) and the decoded envelope has `ok =
false`, the operation fails with the envelope's `error` string verbatim. -/
theorem c6_envelope_error_verbatim :
    (∀ api st body d, decodeHeartbeat body = some d → d.OK = false →
      (Client.Ping api (mkT ⟨st, body⟩)).1 = Outcome.fail (SFError.apiError d.Error)) ∧
    (∀ api venue st body d, trimSpace venue ≠ "" → st ≠ 500 → st ≠ 404 →
      decodeHeartbeat body = some d → d.OK = false →
      (Client.PingVenue api (mkT ⟨st, body⟩) venue).1 = Outcome.fail (SFError.apiError d.Error)) ∧
    (∀ api venue st body d, trimSpace venue ≠ "" → st ≠ 401 → st ≠ 404 →
      decodeStocks body = some d → d.OK = false →
      (Client.ListStocks api (mkT ⟨st, body⟩) venue).1 = Outcome.fail (SFError.apiError d.Error)) ∧
    (∀ api venue stock st body d, trimSpace venue ≠ "" → trimSpace stock ≠ "" →
      st ≠ 401 → st ≠ 404 → decodeOrderbook body = some d → d.OK = false →
      (Client.GetOrderbook api (mkT ⟨st, body⟩) venue stock).1 =
        Outcome.fail (SFError.apiError d.Error)) ∧
    (∀ api venue stock account price qty dir typ st body d,
      trimSpace venue ≠ "" → trimSpace stock ≠ "" → trimSpace account ≠ "" →
      st ≠ 401 → st ≠ 404 → decodeOrder body = some d → d.OK = false →
      (Client.PlaceOrder api (mkT ⟨st, body⟩) venue stock account price qty dir typ).1 =
        Outcome.fail (SFError.apiError d.Error)) ∧
    (∀ api venue stock st body d, trimSpace venue ≠ "" → trimSpace stock ≠ "" →
      st ≠ 401 → st ≠ 404 → decodeQuote body = some d → d.OK = false →
      (Client.GetQuote api (mkT ⟨st, body⟩) venue stock).1 =
        Outcome.fail (SFError.apiError d.Error)) ∧
    (∀ api venue stock oid st body d, trimSpace venue ≠ "" → trimSpace stock ≠ "" →
      st ≠ 401 → decodeOrder body = some d → d.OK = false →
      (Client.GetOrder api (mkT ⟨st, body⟩) venue stock oid).1 =
        Outcome.fail (SFError.apiError d.Error)) ∧
    (∀ api venue stock oid st body d, trimSpace venue ≠ "" → trimSpace stock ≠ "" →
      st ≠ 401 → st ≠ 404 → decodeOrder body = some d → d.OK = false →
      (Client.CancelOrder api (mkT ⟨st, body⟩) venue stock oid).1 =
        Outcome.fail (SFError.apiError d.Error)) ∧
    (∀ api venue account st body d, trimSpace venue ≠ "" → trimSpace account ≠ "" →
      st ≠ 401 → decodeAllOrders body = some d → d.OK = false →
      (Client.GetAllOrders api (mkT ⟨st, body⟩) venue account).1 =
        Outcome.fail (SFError.apiError d.Error)) ∧
    (∀ api venue account stock st body d,
      trimSpace venue ≠ "" → trimSpace account ≠ "" → trimSpace stock ≠ "" →
      st ≠ 401 → decodeAllOrders body = some d → d.OK = false →
      (Client.GetStockOrders api (mkT ⟨st, body⟩) venue account stock).1 =
        Outcome.fail (SFError.apiError d.Error)) := by
  refine ⟨?_, ?_, ?_, ?_, ?_, ?_, ?_, ?_, ?_, ?_⟩
  · intro api st body d hd hok
    simp [Client.Ping, mkT, pingResp, hd, hok]
  · intro api venue st body d h hs1 hs2 hd hok
    simp [Client.PingVenue, mkT, pingVenueResp, h, hs1, hs2, hd, hok]
  · intro api venue st body d h hs1 hs2 hd hok
    simp [Client.ListStocks, mkT, listStocksResp, h, hs1, hs2, hd, hok]
  · intro api venue stock st body d h1 h2 hs1 hs2 hd hok
    simp [Client.GetOrderbook, mkT, getOrderbookResp, h1, h2, hs1, hs2, hd, hok]
  · intro api venue stock account price qty dir typ st body d h1 h2 h3 hs1 hs2 hd hok
    simp [Client.PlaceOrder, mkT, placeOrderResp, h1, h2, h3, hs1, hs2, hd, hok]
  · intro api venue stock st body d h1 h2 hs1 hs2 hd hok
    simp [Client.GetQuote, mkT, getQuoteResp, h1, h2, hs1, hs2, hd, hok]
  · intro api venue stock oid st body d h1 h2 hs1 hd hok
    simp [Client.GetOrder, mkT, getOrderResp, h1, h2, hs1, hd, hok]
  · intro api venue stock oid st body d h1 h2 hs1 hs2 hd hok
    simp [Client.CancelOrder, mkT, cancelOrderResp, h1, h2, hs1, hs2, hd, hok]
  · intro api venue account st body d h1 h2 hs1 hd hok
    simp [Client.GetAllOrders, mkT, allOrdersResp, h1, h2, hs1, hd, hok]
  · intro api venue account stock st body d h1 h2 h3 hs1 hd hok
    simp [Client.GetStockOrders, mkT, allOrdersResp, h1, h2, h3, hs1, hd, hok]

/-- Witness for C6: the spec's own example — a 200 envelope
`ok:false, error:"boom"` yields an error with message exactly `boom`. -/
theorem c6_witness :
    (Client.Ping ⟨"key"⟩ (mkT ⟨200, "\x7b\"ok\": false, \"error\": \"boom\"\x7d"⟩)).1 =
      Outcome.fail (SFError.apiError "boom") ∧
    (Client.ListStocks ⟨"key"⟩ (mkT ⟨200, "\x7b\"ok\": false, \"error\": \"boom\"\x7d"⟩) "TESTEX").1 =
      Outcome.fail (SFError.apiError "boom") :=
  ⟨c6_envelope_error_verbatim.1 ⟨"key"⟩ 200 "\x7b\"ok\": false, \"error\": \"boom\"\x7d"
      { OK := false, Error := "boom" } (by rfl) (by rfl),
   (c6_envelope_error_verbatim.2.2.1 ⟨"key"⟩ "TESTEX" 200
      "\x7b\"ok\": false, \"error\": \"boom\"\x7d" { OK := false, Error := "boom" }
      (by decide) (by decide) (by decide) (by rfl) (by rfl))⟩

/-- C7: on a 200 response whose envelope decodes with `ok = true`, every
operation returns a success value copied field-by-field from the envelope —
in particular `GetOrderbook` returns the bid and ask sequences exactly as
decoded (in server order) with the snapshot timestamp, and `PlaceOrder`
(like `GetOrder`/`CancelOrder`) copies every `OrderStatus` field. -/
theorem c7_success_roundtrip :
    (∀ api body d, decodeHeartbeat body = some d → d.OK = true →
      (Client.Ping api (mkT ⟨200, body⟩)).1 = Outcome.ok ()) ∧
    (∀ api venue body d, trimSpace venue ≠ "" → decodeHeartbeat body = some d → d.OK = true →
      (Client.PingVenue api (mkT ⟨200, body⟩) venue).1 = Outcome.ok ()) ∧
    (∀ api venue body d, trimSpace venue ≠ "" → decodeStocks body = some d → d.OK = true →
      (Client.ListStocks api (mkT ⟨200, body⟩) venue).1 = Outcome.ok d.Stocks) ∧
    (∀ api venue stock body d, trimSpace venue ≠ "" → trimSpace stock ≠ "" →
      decodeOrderbook body = some d → d.OK = true →
      (Client.GetOrderbook api (mkT ⟨200, body⟩) venue stock).1 =
        Outcome.ok { Bids := d.Bids, Asks := d.Asks, Timestamp := d.Timestamp }) ∧
    (∀ api venue stock account price qty dir typ body d,
      trimSpace venue ≠ "" → trimSpace stock ≠ "" → trimSpace account ≠ "" →
      decodeOrder body = some d → d.OK = true →
      (Client.PlaceOrder api (mkT ⟨200, body⟩) venue stock account price qty dir typ).1 =
        Outcome.ok
          { Direction := d.Direction, OriginalQuantity := d.OriginalQuantity,
            Quantity := d.Quantity, Price := d.Price, OrderType := d.OrderType,
            OrderID := d.OrderID, Account := d.Account, Timestamp := d.Timestamp,
            Fills := d.Fills, TotalFilled := d.TotalFilled, Open := d.Open }) ∧
    (∀ api venue stock body d, trimSpace venue ≠ "" → trimSpace stock ≠ "" →
      decodeQuote body = some d → d.OK = true →
      (Client.GetQuote api (mkT ⟨200, body⟩) venue stock).1 =
        Outcome.ok
          { BidPrice := d.BidPrice, BidSize := d.BidSize, BidDepth := d.BidDepth,
            AskPrice := d.AskPrice, AskSize := d.AskSize, AskDepth := d.AskDepth,
            LastPrice := d.LastPrice, LastSize := d.LastSize,
            LastTradeTime := d.LastTradeTime, QuoteTime := d.QuoteTime }) ∧
    (∀ api venue stock oid body d, trimSpace venue ≠ "" → trimSpace stock ≠ "" →
      decodeOrder body = some d → d.OK = true →
      (Client.GetOrder api (mkT ⟨200, body⟩) venue stock oid).1 =
        Outcome.ok
          { Direction := d.Direction, OriginalQuantity := d.OriginalQuantity,
            Quantity := d.Quantity, Price := d.Price, OrderType := d.OrderType,
            OrderID := d.OrderID, Account := d.Account, Timestamp := d.Timestamp,
            Fills := d.Fills, TotalFilled := d.TotalFilled, Open := d.Open }) ∧
    (∀ api venue stock oid body d, trimSpace venue ≠ "" → trimSpace stock ≠ "" →
      decodeOrder body = some d → d.OK = true →
      (Client.CancelOrder api (mkT ⟨200, body⟩) venue stock oid).1 =
        Outcome.ok
          { Direction := d.Direction, OriginalQuantity := d.OriginalQuantity,
            Quantity := d.Quantity, Price := d.Price, OrderType := d.OrderType,
            OrderID := d.OrderID, Account := d.Account, Timestamp := d.Timestamp,
            Fills := d.Fills, TotalFilled := d.TotalFilled, Open := d.Open }) ∧
    (∀ api venue account body d, trimSpace venue ≠ "" → trimSpace account ≠ "" →
      decodeAllOrders body = some d → d.OK = true →
      (Client.GetAllOrders api (mkT ⟨200, body⟩) venue account).1 = Outcome.ok d.Orders) ∧
    (∀ api venue account stock body d,
      trimSpace venue ≠ "" → trimSpace account ≠ "" → trimSpace stock ≠ "" →
      decodeAllOrders body = some d → d.OK = true →
      (Client.GetStockOrders api (mkT ⟨200, body⟩) venue account stock).1 =
        Outcome.ok d.Orders) := by
  refine ⟨?_, ?_, ?_, ?_, ?_, ?_, ?_, ?_, ?_, ?_⟩
  · intro api body d hd hok
    simp [Client.Ping, mkT, pingResp, hd, hok]
  · intro api venue body d h hd hok
    simp [Client.PingVenue, mkT, pingVenueResp, h, hd, hok]
  · intro api venue body d h hd hok
    simp [Client.ListStocks, mkT, listStocksResp, h, hd, hok]
  · intro api venue stock body d h1 h2 hd hok
    simp [Client.GetOrderbook, mkT, getOrderbookResp, h1, h2, hd, hok]
  · intro api venue stock account price qty dir typ body d h1 h2 h3 hd hok
    simp [Client.PlaceOrder, mkT, placeOrderResp, orderStatusOfEnv, h1, h2, h3, hd, hok]
  · intro api venue stock body d h1 h2 hd hok
    simp [Client.GetQuote, mkT, getQuoteResp, h1, h2, hd, hok]
  · intro api venue stock oid body d h1 h2 hd hok
    simp [Client.GetOrder, mkT, getOrderResp, orderStatusOfEnv, h1, h2, hd, hok]
  · intro api venue stock oid body d h1 h2 hd hok
    simp [Client.CancelOrder, mkT, cancelOrderResp, orderStatusOfEnv, h1, h2, hd, hok]
  · intro api venue account body d h1 h2 hd hok
    simp [Client.GetAllOrders, mkT, allOrdersResp, h1, h2, hd, hok]
  · intro api venue account stock body d h1 h2 h3 hd hok
    simp [Client.GetStockOrders, mkT, allOrdersResp, h1, h2, h3, hd, hok]

/-- Witness for C7: the spec's concrete placement scenario — a 200
envelope with id 12345, `open: true`, `fills: []` yields an `OrderStatus`
with exactly those fields. -/
theorem c7_witness :
    (Client.PlaceOrder ⟨"key"⟩
      (mkT ⟨200, "\x7b\"ok\": true, \"venue\": \"TESTEX\", \"symbol\": \"FOOBAR\", \"direction\": \"buy\", \"originalQty\": 4625, \"qty\": 4625, \"price\": 5264, \"orderType\": \"limit\", \"id\": 12345, \"account\": \"EXB123456\", \"ts\": \"2015-07-05T22:16:18Z\", \"fills\": [], \"totalFilled\": 0, \"open\": true\x7d"⟩)
      "TESTEX" "FOOBAR" "EXB123456" 5264 4625 "buy" "limit").1 =
      Outcome.ok
        { Direction := "buy", OriginalQuantity := 4625, Quantity := 4625, Price := 5264,
          OrderType := "limit", OrderID := 12345, Account := "EXB123456",
          Timestamp := "2015-07-05T22:16:18Z", Fills := [], TotalFilled := 0, Open := true } :=
  c7_success_roundtrip.2.2.2.2.1 ⟨"key"⟩ "TESTEX" "FOOBAR" "EXB123456" 5264 4625 "buy" "limit"
    "\x7b\"ok\": true, \"venue\": \"TESTEX\", \"symbol\": \"FOOBAR\", \"direction\": \"buy\", \"originalQty\": 4625, \"qty\": 4625, \"price\": 5264, \"orderType\": \"limit\", \"id\": 12345, \"account\": \"EXB123456\", \"ts\": \"2015-07-05T22:16:18Z\", \"fills\": [], \"totalFilled\": 0, \"open\": true\x7d"
    { OK := true, VenueSymbol := "TESTEX", StockSymbol := "FOOBAR", Direction := "buy",
      OriginalQuantity := 4625, Quantity := 4625, Price := 5264, OrderType := "limit",
      OrderID := 12345, Account := "EXB123456", Timestamp := "2015-07-05T22:16:18Z",
      Fills := [], TotalFilled := 0, Open := true }
    (by decide) (by decide) (by decide) (by rfl) (by rfl)

/-- C8: `GetOrder`, `GetAllOrders` and `GetStockOrders` do not classify a
404 — they check only the 401 sentinel, handle a 404 exactly as a 200
(envelope inspection), and on a 404 produce the envelope's error verbatim
(when it decodes with `ok:false`) or a decode error (when it does not
decode), never `VenueNotFound` or `StockNotFound`. -/
theorem c8_order_ops_404_fallthrough :
    (∀ api venue stock oid body, trimSpace venue ≠ "" → trimSpace stock ≠ "" →
      (Client.GetOrder api (mkT ⟨404, body⟩) venue stock oid).1 =
        (Client.GetOrder api (mkT ⟨200, body⟩) venue stock oid).1) ∧
    (∀ api venue stock oid body d, trimSpace venue ≠ "" → trimSpace stock ≠ "" →
      decodeOrder body = some d → d.OK = false →
      (Client.GetOrder api (mkT ⟨404, body⟩) venue stock oid).1 =
        Outcome.fail (SFError.apiError d.Error)) ∧
    (∀ api venue stock oid body, trimSpace venue ≠ "" → trimSpace stock ≠ "" →
      decodeOrder body = none →
      (Client.GetOrder api (mkT ⟨404, body⟩) venue stock oid).1 =
        Outcome.fail SFError.decodeErr) ∧
    (∀ api venue stock oid body v s, trimSpace venue ≠ "" → trimSpace stock ≠ "" →
      (Client.GetOrder api (mkT ⟨404, body⟩) venue stock oid).1 ≠
        Outcome.fail (SFError.venueNotFound v) ∧
      (Client.GetOrder api (mkT ⟨404, body⟩) venue stock oid).1 ≠
        Outcome.fail (SFError.stockNotFound v s)) ∧
    (∀ api venue account body, trimSpace venue ≠ "" → trimSpace account ≠ "" →
      (Client.GetAllOrders api (mkT ⟨404, body⟩) venue account).1 =
        (Client.GetAllOrders api (mkT ⟨200, body⟩) venue account).1) ∧
    (∀ api venue account body d, trimSpace venue ≠ "" → trimSpace account ≠ "" →
      decodeAllOrders body = some d → d.OK = false →
      (Client.GetAllOrders api (mkT ⟨404, body⟩) venue account).1 =
        Outcome.fail (SFError.apiError d.Error)) ∧
    (∀ api venue account body, trimSpace venue ≠ "" → trimSpace account ≠ "" →
      decodeAllOrders body = none →
      (Client.GetAllOrders api (mkT ⟨404, body⟩) venue account).1 =
        Outcome.fail SFError.decodeErr) ∧
    (∀ api venue account body v s, trimSpace venue ≠ "" → trimSpace account ≠ "" →
      (Client.GetAllOrders api (mkT ⟨404, body⟩) venue account).1 ≠
        Outcome.fail (SFError.venueNotFound v) ∧
      (Client.GetAllOrders api (mkT ⟨404, body⟩) venue account).1 ≠
        Outcome.fail (SFError.stockNotFound v s)) ∧
    (∀ api venue account stock body,
      trimSpace venue ≠ "" → trimSpace account ≠ "" → trimSpace stock ≠ "" →
      (Client.GetStockOrders api (mkT ⟨404, body⟩) venue account stock).1 =
        (Client.GetStockOrders api (mkT ⟨200, body⟩) venue account stock).1) ∧
    (∀ api venue account stock body d,
      trimSpace venue ≠ "" → trimSpace account ≠ "" → trimSpace stock ≠ "" →
      decodeAllOrders body = some d → d.OK = false →
      (Client.GetStockOrders api (mkT ⟨404, body⟩) venue account stock).1 =
        Outcome.fail (SFError.apiError d.Error)) ∧
    (∀ api venue account stock body,
      trimSpace venue ≠ "" → trimSpace account ≠ "" → trimSpace stock ≠ "" →
      decodeAllOrders body = none →
      (Client.GetStockOrders api (mkT ⟨404, body⟩) venue account stock).1 =
        Outcome.fail SFError.decodeErr) ∧
    (∀ api venue account stock body v s,
      trimSpace venue ≠ "" → trimSpace account ≠ "" → trimSpace stock ≠ "" →
      (Client.GetStockOrders api (mkT ⟨404, body⟩) venue account stock).1 ≠
        Outcome.fail (SFError.venueNotFound v) ∧
      (Client.GetStockOrders api (mkT ⟨404, body⟩) venue account stock).1 ≠
        Outcome.fail (SFError.stockNotFound v s)) := by
  refine ⟨?_, ?_, ?_, ?_, ?_, ?_, ?_, ?_, ?_, ?_, ?_, ?_⟩
  · intro api venue stock oid body h1 h2
    simp [Client.GetOrder, mkT, getOrderResp, h1, h2]
  · intro api venue stock oid body d h1 h2 hd hok
    simp [Client.GetOrder, mkT, getOrderResp, h1, h2, hd, hok]
  · intro api venue stock oid body h1 h2 hd
    simp [Client.GetOrder, mkT, getOrderResp, h1, h2, hd]
  · intro api venue stock oid body v s h1 h2
    rcases hd : decodeOrder body with _ | d
    · simp [Client.GetOrder, mkT, getOrderResp, h1, h2, hd]
    · by_cases hok : d.OK <;> simp [Client.GetOrder, mkT, getOrderResp, h1, h2, hd, hok]
  · intro api venue account body h1 h2
    simp [Client.GetAllOrders, mkT, allOrdersResp, h1, h2]
  · intro api venue account body d h1 h2 hd hok
    simp [Client.GetAllOrders, mkT, allOrdersResp, h1, h2, hd, hok]
  · intro api venue account body h1 h2 hd
    simp [Client.GetAllOrders, mkT, allOrdersResp, h1, h2, hd]
  · intro api venue account body v s h1 h2
    rcases hd : decodeAllOrders body with _ | d
    · simp [Client.GetAllOrders, mkT, allOrdersResp, h1, h2, hd]
    · by_cases hok : d.OK <;> simp [Client.GetAllOrders, mkT, allOrdersResp, h1, h2, hd, hok]
  · intro api venue account stock body h1 h2 h3
    simp [Client.GetStockOrders, mkT, allOrdersResp, h1, h2, h3]
  · intro api venue account stock body d h1 h2 h3 hd hok
    simp [Client.GetStockOrders, mkT, allOrdersResp, h1, h2, h3, hd, hok]
  · intro api venue account stock body h1 h2 h3 hd
    simp [Client.GetStockOrders, mkT, allOrdersResp, h1, h2, h3, hd]
  · intro api venue account stock body v s h1 h2 h3
    rcases hd : decodeAllOrders body with _ | d
    · simp [Client.GetStockOrders, mkT, allOrdersResp, h1, h2, h3, hd]
    · by_cases hok : d.OK <;> simp [Client.GetStockOrders, mkT, allOrdersResp, h1, h2, h3, hd, hok]

/-- Witness for C8: a 404 on `GetOrder` with an `ok:false` envelope yields
the generic envelope error, not a typed not-found. -/
theorem c8_witness :
    (Client.GetOrder ⟨"key"⟩ (mkT ⟨404, "\x7b\"ok\": false, \"error\": \"no such order\"\x7d"⟩)
      "TESTEX" "FOOBAR" 12345).1 = Outcome.fail (SFError.apiError "no such order") ∧
    (Client.GetAllOrders ⟨"key"⟩ (mkT ⟨404, ""⟩) "TESTEX" "EXB123456").1 =
      Outcome.fail SFError.decodeErr :=
  ⟨(c8_order_ops_404_fallthrough.2.1 ⟨"key"⟩ "TESTEX" "FOOBAR" 12345
      "\x7b\"ok\": false, \"error\": \"no such order\"\x7d"
      { OK := false, Error := "no such order" } (by decide) (by decide) (by rfl) (by rfl)),
   (c8_order_ops_404_fallthrough.2.2.2.2.2.2.1 ⟨"key"⟩ "TESTEX" "EXB123456" ""
      (by decide) (by decide) (by rfl))⟩

/-- A string consisting only of `unicode.IsSpace` characters trims to the
empty string. -/
theorem trim_of_all_space (s : String) (h : s.data.all isSpaceGo = true) : trimSpace s = "" := by
  have hd : s.data.dropWhile isSpaceGo = [] :=
    List.dropWhile_eq_nil_iff.mpr (by simpa [List.all_eq_true] using h)
  simp [trimSpace, hd]

/-- C10: every operation trims its venue/stock/account arguments up front —
whitespace-only arguments are rejected (by panic) before any request with
the identifiers checked in source order, the request URL (and, for
`PlaceOrder`, the request body) is built from the trimmed symbols, and the
`VenueNotFound`/`StockNotFound` errors carry the trimmed symbols. -/
theorem c10_trimming :
    (∀ api t venue, venue.data.all isSpaceGo = true →
      Client.PingVenue api t venue = (Outcome.panicked "Invalid venue symbol: ", [])) ∧
    (∀ api t venue, venue.data.all isSpaceGo = true →
      Client.ListStocks api t venue = (Outcome.panicked "Invalid venue symbol: ", [])) ∧
    (∀ api t venue stock, venue.data.all isSpaceGo = true →
      Client.GetOrderbook api t venue stock = (Outcome.panicked "Invalid venue symbol: ", [])) ∧
    (∀ api t venue stock, trimSpace venue ≠ "" → stock.data.all isSpaceGo = true →
      Client.GetOrderbook api t venue stock = (Outcome.panicked "Invalid stock symbol: ", [])) ∧
    (∀ api t venue stock account price qty dir typ, venue.data.all isSpaceGo = true →
      Client.PlaceOrder api t venue stock account price qty dir typ =
        (Outcome.panicked "Invalid venue symbol: ", [])) ∧
    (∀ api t venue stock account price qty dir typ,
      trimSpace venue ≠ "" → stock.data.all isSpaceGo = true →
      Client.PlaceOrder api t venue stock account price qty dir typ =
        (Outcome.panicked "Invalid stock symbol: ", [])) ∧
    (∀ api t venue stock account price qty dir typ,
      trimSpace venue ≠ "" → trimSpace stock ≠ "" → account.data.all isSpaceGo = true →
      Client.PlaceOrder api t venue stock account price qty dir typ =
        (Outcome.panicked "Invalid account name: ", [])) ∧
    (∀ api t venue stock, venue.data.all isSpaceGo = true →
      Client.GetQuote api t venue stock = (Outcome.panicked "Invalid venue symbol: ", [])) ∧
    (∀ api t venue stock, trimSpace venue ≠ "" → stock.data.all isSpaceGo = true →
      Client.GetQuote api t venue stock = (Outcome.panicked "Invalid stock symbol: ", [])) ∧
    (∀ api t venue stock oid, venue.data.all isSpaceGo = true →
      Client.GetOrder api t venue stock oid = (Outcome.panicked "Invalid venue symbol: ", [])) ∧
    (∀ api t venue stock oid, trimSpace venue ≠ "" → stock.data.all isSpaceGo = true →
      Client.GetOrder api t venue stock oid = (Outcome.panicked "Invalid stock symbol: ", [])) ∧
    (∀ api t venue stock oid, venue.data.all isSpaceGo = true →
      Client.CancelOrder api t venue stock oid = (Outcome.panicked "Invalid venue symbol: ", [])) ∧
    (∀ api t venue stock oid, trimSpace venue ≠ "" → stock.data.all isSpaceGo = true →
      Client.CancelOrder api t venue stock oid = (Outcome.panicked "Invalid stock symbol: ", [])) ∧
    (∀ api t venue account, venue.data.all isSpaceGo = true →
      Client.GetAllOrders api t venue account = (Outcome.panicked "Invalid venue symbol: ", [])) ∧
    (∀ api t venue account, trimSpace venue ≠ "" → account.data.all isSpaceGo = true →
      Client.GetAllOrders api t venue account = (Outcome.panicked "Invalid account name: ", [])) ∧
    (∀ api t venue account stock, venue.data.all isSpaceGo = true →
      Client.GetStockOrders api t venue account stock =
        (Outcome.panicked "Invalid venue symbol: ", [])) ∧
    (∀ api t venue account stock, trimSpace venue ≠ "" → account.data.all isSpaceGo = true →
      Client.GetStockOrders api t venue account stock =
        (Outcome.panicked "Invalid account name: ", [])) ∧
    (∀ api t venue account stock,
      trimSpace venue ≠ "" → trimSpace account ≠ "" → stock.data.all isSpaceGo = true →
      Client.GetStockOrders api t venue account stock =
        (Outcome.panicked "Invalid stock symbol: ", [])) ∧
    (∀ api t venue, trimSpace venue ≠ "" →
      (Client.PingVenue api t venue).2 =
        [{ method := "GET", url := apiBaseURL ++ "/venues/" ++ trimSpace venue ++ "/heartbeat",
           headers := [], body := none }]) ∧
    (∀ api t venue, trimSpace venue ≠ "" →
      (Client.ListStocks api t venue).2 =
        [{ method := "GET", url := apiBaseURL ++ "/venues/" ++ trimSpace venue ++ "/stocks",
           headers := [], body := none }]) ∧
    (∀ api t venue stock, trimSpace venue ≠ "" → trimSpace stock ≠ "" →
      (Client.GetOrderbook api t venue stock).2 =
        [{ method := "GET",
           url := apiBaseURL ++ "/venues/" ++ trimSpace venue ++ "/stocks/" ++ trimSpace stock,
           headers := [], body := none }]) ∧
    (∀ api t venue stock account price qty dir typ,
      trimSpace venue ≠ "" → trimSpace stock ≠ "" → trimSpace account ≠ "" →
      (Client.PlaceOrder api t venue stock account price qty dir typ).2 =
        [{ method := "POST",
           url := apiBaseURL ++ "/venues/" ++ trimSpace venue ++ "/stocks/" ++ trimSpace stock ++ "/orders",
           headers := [("X-Starfighter-Authorization", api.apiKey), ("Content-Type", "application/json")],
           body := some (orderBodyStr (trimSpace account) (trimSpace venue) (trimSpace stock)
             price qty dir typ) }]) ∧
    (∀ api t venue stock, trimSpace venue ≠ "" → trimSpace stock ≠ "" →
      (Client.GetQuote api t venue stock).2 =
        [{ method := "GET",
           url := apiBaseURL ++ "/venues/" ++ trimSpace venue ++ "/stocks/" ++ trimSpace stock ++ "/quote",
           headers := [], body := none }]) ∧
    (∀ api t venue stock oid, trimSpace venue ≠ "" → trimSpace stock ≠ "" →
      (Client.GetOrder api t venue stock oid).2 =
        [{ method := "GET",
           url := apiBaseURL ++ "/venues/" ++ trimSpace venue ++ "/stocks/" ++ trimSpace stock ++ "/orders/" ++ Int.repr oid,
           headers := [("X-Starfighter-Authorization", api.apiKey)], body := none }]) ∧
    (∀ api t venue stock oid, trimSpace venue ≠ "" → trimSpace stock ≠ "" →
      (Client.CancelOrder api t venue stock oid).2 =
        [{ method := "DELETE",
           url := apiBaseURL ++ "/venues/" ++ trimSpace venue ++ "/stocks/" ++ trimSpace stock ++ "/orders/" ++ Int.repr oid,
           headers := [("X-Starfighter-Authorization", api.apiKey)], body := none }]) ∧
    (∀ api t venue account, trimSpace venue ≠ "" → trimSpace account ≠ "" →
      (Client.GetAllOrders api t venue account).2 =
        [{ method := "GET",
           url := apiBaseURL ++ "/venues/" ++ trimSpace venue ++ "/accounts/" ++ trimSpace account ++ "/orders",
           headers := [("X-Starfighter-Authorization", api.apiKey)], body := none }]) ∧
    (∀ api t venue account stock,
      trimSpace venue ≠ "" → trimSpace account ≠ "" → trimSpace stock ≠ "" →
      (Client.GetStockOrders api t venue account stock).2 =
        [{ method := "GET",
           url := apiBaseURL ++ "/venues/" ++ trimSpace venue ++ "/accounts/" ++ trimSpace account ++ "/stocks/" ++ trimSpace stock ++ "/orders",
           headers := [("X-Starfighter-Authorization", api.apiKey)], body := none }]) ∧
    (∀ api venue body, trimSpace venue ≠ "" →
      (Client.PingVenue api (mkT ⟨404, body⟩) venue).1 =
        Outcome.fail (SFError.venueNotFound (trimSpace venue))) ∧
    (∀ api venue body, trimSpace venue ≠ "" →
      (Client.ListStocks api (mkT ⟨404, body⟩) venue).1 =
        Outcome.fail (SFError.venueNotFound (trimSpace venue))) ∧
    (∀ api venue stock body, trimSpace venue ≠ "" → trimSpace stock ≠ "" →
      (Client.GetOrderbook api (mkT ⟨404, body⟩) venue stock).1 =
        Outcome.fail (SFError.stockNotFound (trimSpace venue) (trimSpace stock))) ∧
    (∀ api venue stock account price qty dir typ body,
      trimSpace venue ≠ "" → trimSpace stock ≠ "" → trimSpace account ≠ "" →
      (Client.PlaceOrder api (mkT ⟨404, body⟩) venue stock account price qty dir typ).1 =
        Outcome.fail (SFError.stockNotFound (trimSpace venue) (trimSpace stock))) ∧
    (∀ api venue stock body, trimSpace venue ≠ "" → trimSpace stock ≠ "" →
      (Client.GetQuote api (mkT ⟨404, body⟩) venue stock).1 =
        Outcome.fail (SFError.stockNotFound (trimSpace venue) (trimSpace stock))) ∧
    (∀ api venue stock oid body, trimSpace venue ≠ "" → trimSpace stock ≠ "" →
      (Client.CancelOrder api (mkT ⟨404, body⟩) venue stock oid).1 =
        Outcome.fail (SFError.stockNotFound (trimSpace venue) (trimSpace stock))) := by
  refine ⟨?_, ?_, ?_, ?_, ?_, ?_, ?_, ?_, ?_, ?_, ?_, ?_, ?_, ?_, ?_, ?_, ?_, ?_, ?_, ?_, ?_,
    ?_, ?_, ?_, ?_, ?_, ?_, ?_, ?_, ?_, ?_, ?_, ?_⟩
  · intro api t venue h
    simp [Client.PingVenue, trim_of_all_space venue h]
  · intro api t venue h
    simp [Client.ListStocks, trim_of_all_space venue h]
  · intro api t venue stock h
    simp [Client.GetOrderbook, trim_of_all_space venue h]
  · intro api t venue stock h1 h2
    simp [Client.GetOrderbook, h1, trim_of_all_space stock h2]
  · intro api t venue stock account price qty dir typ h
    simp [Client.PlaceOrder, trim_of_all_space venue h]
  · intro api t venue stock account price qty dir typ h1 h2
    simp [Client.PlaceOrder, h1, trim_of_all_space stock h2]
  · intro api t venue stock account price qty dir typ h1 h2 h3
    simp [Client.PlaceOrder, h1, h2, trim_of_all_space account h3]
  · intro api t venue stock h
    simp [Client.GetQuote, trim_of_all_space venue h]
  · intro api t venue stock h1 h2
    simp [Client.GetQuote, h1, trim_of_all_space stock h2]
  · intro api t venue stock oid h
    simp [Client.GetOrder, trim_of_all_space venue h]
  · intro api t venue stock oid h1 h2
    simp [Client.GetOrder, h1, trim_of_all_space stock h2]
  · intro api t venue stock oid h
    simp [Client.CancelOrder, trim_of_all_space venue h]
  · intro api t venue stock oid h1 h2
    simp [Client.CancelOrder, h1, trim_of_all_space stock h2]
  · intro api t venue account h
    simp [Client.GetAllOrders, trim_of_all_space venue h]
  · intro api t venue account h1 h2
    simp [Client.GetAllOrders, h1, trim_of_all_space account h2]
  · intro api t venue account stock h
    simp [Client.GetStockOrders, trim_of_all_space venue h]
  · intro api t venue account stock h1 h2
    simp [Client.GetStockOrders, h1, trim_of_all_space account h2]
  · intro api t venue account stock h1 h2 h3
    simp [Client.GetStockOrders, h1, h2, trim_of_all_space stock h3]
  · intro api t venue h
    simp [Client.PingVenue, h]
  · intro api t venue h
    simp [Client.ListStocks, h]
  · intro api t venue stock h1 h2
    simp [Client.GetOrderbook, h1, h2]
  · intro api t venue stock account price qty dir typ h1 h2 h3
    simp [Client.PlaceOrder, h1, h2, h3]
  · intro api t venue stock h1 h2
    simp [Client.GetQuote, h1, h2]
  · intro api t venue stock oid h1 h2
    simp [Client.GetOrder, h1, h2]
  · intro api t venue stock oid h1 h2
    simp [Client.CancelOrder, h1, h2]
  · intro api t venue account h1 h2
    simp [Client.GetAllOrders, h1, h2]
  · intro api t venue account stock h1 h2 h3
    simp [Client.GetStockOrders, h1, h2, h3]
  · intro api venue body h
    simp [Client.PingVenue, mkT, pingVenueResp, h]
  · intro api venue body h
    simp [Client.ListStocks, mkT, listStocksResp, h]
  · intro api venue stock body h1 h2
    simp [Client.GetOrderbook, mkT, getOrderbookResp, h1, h2]
  · intro api venue stock account price qty dir typ body h1 h2 h3
    simp [Client.PlaceOrder, mkT, placeOrderResp, h1, h2, h3]
  · intro api venue stock body h1 h2
    simp [Client.GetQuote, mkT, getQuoteResp, h1, h2]
  · intro api venue stock oid body h1 h2
    simp [Client.CancelOrder, mkT, cancelOrderResp, h1, h2]

/-- Witness for C10: a whitespace-only venue panics with zero requests, and
a padded venue/stock pair is trimmed in the URL and in the typed error. -/
theorem c10_witness :
    Client.PingVenue ⟨"key"⟩ (mkT ⟨200, ""⟩) " \t " =
      (Outcome.panicked "Invalid venue symbol: ", []) ∧
    (Client.GetOrderbook ⟨"key"⟩ (mkT ⟨200, ""⟩) " TESTEX " "\tFOOBAR").2 =
      [{ method := "GET", url := apiBaseURL ++ "/venues/" ++ "TESTEX" ++ "/stocks/" ++ "FOOBAR",
         headers := [], body := none }] ∧
    (Client.GetOrderbook ⟨"key"⟩ (mkT ⟨404, ""⟩) " TESTEX " "\tFOOBAR").1 =
      Outcome.fail (SFError.stockNotFound "TESTEX" "FOOBAR") :=
  ⟨c10_trimming.1 ⟨"key"⟩ (mkT ⟨200, ""⟩) " \t " (by decide),
   (by
      have := c10_trimming.2.2.2.2.2.2.2.2.2.2.2.2.2.2.2.2.2.2.2.2.1 ⟨"key"⟩ (mkT ⟨200, ""⟩)
        " TESTEX " "\tFOOBAR" (by decide) (by decide)
      simpa using this),
   (by
      have := c10_trimming.2.2.2.2.2.2.2.2.2.2.2.2.2.2.2.2.2.2.2.2.2.2.2.2.2.2.2.2.2.1
        ⟨"key"⟩ " TESTEX " "\tFOOBAR" "" (by decide) (by decide)
      simpa using this)⟩

/-! ### Scanner lemmas for the order-body analysis (C9) -/

/-- `topStep` appends to the token output without inspecting it. -/
theorem topStep_out (out : List JTok) (c : Char) :
    topStep out c = ⟨(topStep [] c).mode, out ++ (topStep [] c).out⟩ := by
  unfold topStep
  split_ifs <;> simp

/-- `lexStep` appends to the token output without inspecting it. -/
theorem lexStep_out (m : LexMode) (out : List JTok) (c : Char) :
    lexStep ⟨m, out⟩ c = ⟨(lexStep ⟨m, []⟩ c).mode, out ++ (lexStep ⟨m, []⟩ c).out⟩ := by
  cases m with
  | top =>
      simp only [lexStep]
      exact topStep_out out c
  | instr acc =>
      simp only [lexStep]
      split_ifs <;> simp
  | esc acc =>
      simp only [lexStep]
      split_ifs
      · simp
      · rcases h : escChar c with _ | d <;> simp only [h] <;> simp
  | uesc acc hex =>
      simp only [lexStep]
      split_ifs <;> simp
  | num acc =>
      simp only [lexStep]
      split_ifs
      · simp
      · rcases h : emitNum acc with _ | tk <;> simp only [h]
        · simp
        · rw [topStep_out (out ++ [tk]) c, topStep_out ([] ++ [tk]) c]
          simp
  | kw acc =>
      simp only [lexStep]
      split_ifs
      · simp
      · rcases h : emitKw acc with _ | tk <;> simp only [h]
        · simp
        · rw [topStep_out (out ++ [tk]) c, topStep_out ([] ++ [tk]) c]
          simp
  | bad => simp [lexStep]

/-- Folding the scanner appends to the token output without inspecting
it. -/
theorem lexFold_out : ∀ (cs : List Char) (m : LexMode) (out : List JTok),
    cs.foldl lexStep ⟨m, out⟩ =
      ⟨(cs.foldl lexStep ⟨m, []⟩).mode, out ++ (cs.foldl lexStep ⟨m, []⟩).out⟩
  | [], m, out => by simp
  | c :: cs, m, out => by
    rcases h : lexStep ⟨m, []⟩ c with ⟨M, O⟩
    have h2 : lexStep ⟨m, out⟩ c = ⟨M, out ++ O⟩ := by rw [lexStep_out, h]
    rw [List.foldl_cons, List.foldl_cons, h, h2, lexFold_out cs M (out ++ O),
      lexFold_out cs M O]
    simp

theorem cleanChar_spec (c : Char) (h : cleanChar c = true) :
    c ≠ '\"' ∧ c ≠ '\\' ∧ ¬(c.toNat < 32) := by
  unfold cleanChar at h
  split_ifs at h with h1 h2 h3
  exact ⟨h1, h2, h3⟩

/-- Inside a string literal, a run of clean characters is accumulated
verbatim. -/
theorem lexFold_instr_clean : ∀ (cs acc : List Char) (out : List JTok),
    cs.all cleanChar = true →
    cs.foldl lexStep ⟨LexMode.instr acc, out⟩ = ⟨LexMode.instr (acc ++ cs), out⟩
  | [], acc, out, _ => by simp
  | c :: cs, acc, out, h => by
    rw [List.all_cons, Bool.and_eq_true] at h
    obtain ⟨hq, hb, hctl⟩ := cleanChar_spec c h.1
    have hstep : lexStep ⟨LexMode.instr acc, out⟩ c = ⟨LexMode.instr (acc ++ [c]), out⟩ := by
      simp [lexStep, hq, hb, hctl]
    rw [List.foldl_cons, hstep, lexFold_instr_clean cs (acc ++ [c]) out h.2]
    simp

/-- A closing quote emits the accumulated string. -/
theorem lexStep_instr_quote (acc : List Char) (out : List JTok) :
    lexStep ⟨LexMode.instr acc, out⟩ ('\"') = ⟨LexMode.top, out ++ [JTok.str ⟨acc⟩]⟩ := by
  simp [lexStep]

theorem string_mk_data (s : String) : (⟨s.data⟩ : String) = s := rfl

/-! ### Decimal rendering: `Nat.repr` produces the digit run of `n` -/

theorem toDigitsCore_shift (n : Nat) : ∀ (f : Nat) (ds : List Char), n < f →
    Nat.toDigitsCore 10 f n ds = Nat.toDigitsCore 10 (n + 1) n [] ++ ds := by
  induction n using Nat.strong_induction_on with
  | _ n ih =>
    intro f ds hf
    match f, hf with
    | f + 1, _ =>
      by_cases h0 : n / 10 = 0
      · simp [Nat.toDigitsCore, h0]
      · have hn10 : 10 ≤ n := by
          by_contra hlt
          exact h0 (Nat.div_eq_of_lt (by omega))
        have hlt : n / 10 < n := Nat.div_lt_self (by omega) (by norm_num)
        rw [show Nat.toDigitsCore 10 (f + 1) n ds =
              Nat.toDigitsCore 10 f (n / 10) (Nat.digitChar (n % 10) :: ds) from by
            simp [Nat.toDigitsCore, h0]]
        rw [show Nat.toDigitsCore 10 (n + 1) n [] =
              Nat.toDigitsCore 10 n (n / 10) [Nat.digitChar (n % 10)] from by
            simp [Nat.toDigitsCore, h0]]
        rw [ih (n / 10) hlt f (Nat.digitChar (n % 10) :: ds) (by omega),
          ih (n / 10) hlt n [Nat.digitChar (n % 10)] (by omega)]
        simp

theorem toDigits_unfold (n : Nat) :
    Nat.toDigits 10 n =
      if n < 10 then [Nat.digitChar n]
      else Nat.toDigits 10 (n / 10) ++ [Nat.digitChar (n % 10)] := by
  unfold Nat.toDigits
  by_cases h : n < 10
  · have h0 : n / 10 = 0 := Nat.div_eq_of_lt h
    simp [Nat.toDigitsCore, h0, h, Nat.mod_eq_of_lt h]
  · have h0 : ¬(n / 10 = 0) := by
      intro e
      rw [Nat.div_eq_zero_iff (by norm_num)] at e
      exact h e
    rw [show Nat.toDigitsCore 10 (n + 1) n [] =
          Nat.toDigitsCore 10 n (n / 10) [Nat.digitChar (n % 10)] from by
        simp [Nat.toDigitsCore, h0]]
    have hlt : n / 10 < n := Nat.div_lt_self (by omega) (by norm_num)
    rw [toDigitsCore_shift (n / 10) n [Nat.digitChar (n % 10)] (by omega)]
    simp [h]

theorem digitChar_mem (k : Nat) (hk : k < 10) : Nat.digitChar k ∈ digitChars := by
  interval_cases k <;> decide

theorem digitChar_val (k : Nat) (hk : k < 10) : (Nat.digitChar k).toNat - 48 = k := by
  interval_cases k <;> decide

theorem toDigits_mem (n : Nat) : ∀ c ∈ Nat.toDigits 10 n, c ∈ digitChars := by
  induction n using Nat.strong_induction_on with
  | _ n ih =>
    intro c hc
    rw [toDigits_unfold] at hc
    by_cases h : n < 10
    · rw [if_pos h] at hc
      simp only [List.mem_singleton] at hc
      subst hc
      exact digitChar_mem n h
    · rw [if_neg h] at hc
      rcases List.mem_append.mp hc with h1 | h2
      · exact ih (n / 10) (Nat.div_lt_self (by omega) (by norm_num)) c h1
      · simp only [List.mem_singleton] at h2
        subst h2
        exact digitChar_mem (n % 10) (Nat.mod_lt n (by norm_num))

theorem toDigits_ne_nil (n : Nat) : Nat.toDigits 10 n ≠ [] := by
  rw [toDigits_unfold]
  by_cases h : n < 10 <;> simp [h]

theorem digitsToNat_append (xs ys : List Char) :
    digitsToNat (xs ++ ys) = ys.foldl (fun a c => a * 10 + (c.toNat - 48)) (digitsToNat xs) := by
  simp [digitsToNat, List.foldl_append]

theorem digitsToNat_toDigits (n : Nat) : digitsToNat (Nat.toDigits 10 n) = n := by
  induction n using Nat.strong_induction_on with
  | _ n ih =>
    rw [toDigits_unfold]
    by_cases h : n < 10
    · rw [if_pos h]
      simp only [digitsToNat, List.foldl_cons, List.foldl_nil, Nat.zero_mul, Nat.zero_add]
      exact digitChar_val n h
    · rw [if_neg h, digitsToNat_append,
        ih (n / 10) (Nat.div_lt_self (by omega) (by norm_num))]
      simp only [List.foldl_cons, List.foldl_nil]
      rw [digitChar_val (n % 10) (Nat.mod_lt n (by norm_num))]
      omega

theorem repr_data (n : Nat) : (Nat.repr n).data = Nat.toDigits 10 n := rfl

theorem mem_digitChars_isDigit {c : Char} (h : c ∈ digitChars) : c.isDigit = true := by
  fin_cases h <;> decide

theorem mem_digitChars_numChar {c : Char} (h : c ∈ digitChars) : numChar c = true := by
  fin_cases h <;> decide

theorem mem_digitChars_topStep {c : Char} (h : c ∈ digitChars) (out : List JTok) :
    topStep out c = ⟨LexMode.num [c], out⟩ := by
  fin_cases h <;> simp [topStep, jsonWs]

theorem emitNum_repr (n : Nat) : emitNum ((Nat.repr n).data) = some (JTok.int n) := by
  have hal : ((Nat.repr n).data).all Char.isDigit = true :=
    List.all_eq_true.mpr fun c hc =>
      mem_digitChars_isDigit (toDigits_mem n c (by rwa [repr_data] at hc))
  have hne : (Nat.repr n).data ≠ [] := by
    rw [repr_data]
    exact toDigits_ne_nil n
  unfold emitNum
  rw [if_pos ⟨hne, hal⟩, repr_data, digitsToNat_toDigits]

/-- Inside a number, a run of number characters is accumulated verbatim. -/
theorem lexFold_num_run : ∀ (cs acc : List Char) (out : List JTok),
    cs.all numChar = true →
    cs.foldl lexStep ⟨LexMode.num acc, out⟩ = ⟨LexMode.num (acc ++ cs), out⟩
  | [], acc, out, _ => by simp
  | c :: cs, acc, out, h => by
    rw [List.all_cons, Bool.and_eq_true] at h
    have hstep : lexStep ⟨LexMode.num acc, out⟩ c = ⟨LexMode.num (acc ++ [c]), out⟩ := by
      simp [lexStep, h.1]
    rw [List.foldl_cons, hstep, lexFold_num_run cs (acc ++ [c]) out h.2]
    simp

/-- From top level, the decimal rendering of `n` is scanned into number
mode accumulating exactly those digits. -/
theorem lexFold_top_nat (n : Nat) (out : List JTok) :
    ((Nat.repr n).data).foldl lexStep ⟨LexMode.top, out⟩ =
      ⟨LexMode.num ((Nat.repr n).data), out⟩ := by
  have hmem : ∀ c ∈ (Nat.repr n).data, c ∈ digitChars := by
    rw [repr_data]
    exact toDigits_mem n
  rcases hd : (Nat.repr n).data with _ | ⟨c, cs⟩
  · rw [repr_data] at hd
    exact absurd hd (toDigits_ne_nil n)
  · rw [hd] at hmem
    have hc : c ∈ digitChars := hmem c (List.mem_cons_self c cs)
    have hcs : cs.all numChar = true :=
      List.all_eq_true.mpr fun x hx => mem_digitChars_numChar (hmem x (List.mem_cons_of_mem c hx))
    rw [List.foldl_cons]
    rw [show lexStep ⟨LexMode.top, out⟩ c = ⟨LexMode.num [c], out⟩ from by
      simp only [lexStep]
      exact mem_digitChars_topStep hc out]
    rw [lexFold_num_run cs [c] out hcs]
    simp

/-- A comma after the decimal rendering of `n` emits the integer token and
the comma. -/
theorem lexStep_num_comma (n : Nat) (out : List JTok) :
    lexStep ⟨LexMode.num ((Nat.repr n).data), out⟩ (',') =
      ⟨LexMode.top, out ++ [JTok.int n, JTok.comma]⟩ := by
  have h1 : numChar (',') = false := by decide
  have h2 : jsonWs (',') = false := by decide
  simp [lexStep, topStep, emitNum_repr, h1, h2]

/-- Crossing a clean interpolated string followed by its closing quote. -/
theorem lexFold_str_unit (s : String) (out : List JTok) (tail : List Char)
    (h : cleanStr s = true) :
    (s.data ++ '\"' :: tail).foldl lexStep ⟨LexMode.instr [], out⟩ =
      tail.foldl lexStep ⟨LexMode.top, out ++ [JTok.str s]⟩ := by
  rw [List.foldl_append,
    lexFold_instr_clean s.data [] out (by simpa [cleanStr] using h),
    List.foldl_cons, lexStep_instr_quote]
  simp [string_mk_data]

/-- Crossing an interpolated number followed by its comma delimiter. -/
theorem lexFold_num_unit (n : Nat) (out : List JTok) (tail : List Char) :
    ((Nat.repr n).data ++ ',' :: tail).foldl lexStep ⟨LexMode.top, out⟩ =
      tail.foldl lexStep ⟨LexMode.top, out ++ [JTok.int n, JTok.comma]⟩ := by
  rw [List.foldl_append, lexFold_top_nat, List.foldl_cons, lexStep_num_comma]

/-- Crossing a concrete template segment whose scan (from empty output) is
known. -/
theorem lexFold_conc (xs : List Char) (m₀ m₁ : LexMode) (T : List JTok)
    (h : xs.foldl lexStep ⟨m₀, []⟩ = ⟨m₁, T⟩) (out : List JTok) (ys : List Char) :
    (xs ++ ys).foldl lexStep ⟨m₀, out⟩ = ys.foldl lexStep ⟨m₁, out ++ T⟩ := by
  rw [List.foldl_append, lexFold_out xs m₀ out, h]

/-- Terminal form of `lexFold_conc`. -/
theorem lexFold_conc_end (xs : List Char) (m₀ m₁ : LexMode) (T : List JTok)
    (h : xs.foldl lexStep ⟨m₀, []⟩ = ⟨m₁, T⟩) (out : List JTok) :
    xs.foldl lexStep ⟨m₀, out⟩ = ⟨m₁, out ++ T⟩ := by
  rw [lexFold_out xs m₀ out, h]

/-- The `fmt.Sprintf` order body, for clean argument strings, scans and
parses to exactly the seven-field JSON object with the interpolated
values. -/
theorem parse_orderBody (account venue stock : String) (price qty : Nat) (dir typ : String)
    (hA : cleanStr account = true) (hV : cleanStr venue = true) (hS : cleanStr stock = true)
    (hD : cleanStr dir = true) (hT : cleanStr typ = true) :
    parseOne (orderBodyStr account venue stock price qty dir typ) =
      some (Json.obj
        [("account", Json.str account), ("venue", Json.str venue),
         ("stock", Json.str stock), ("price", Json.num price), ("qty", Json.num qty),
         ("direction", Json.str dir), ("orderType", Json.str typ)]) := by
  have e1 : ("\",\n\t\t\t\"venue\": \"" : String).data =
      '\"' :: (",\n\t\t\t\"venue\": \"" : String).data := by decide
  have e2 : ("\",\n\t\t\t\"stock\": \"" : String).data =
      '\"' :: (",\n\t\t\t\"stock\": \"" : String).data := by decide
  have e3 : ("\",\n\t\t\t\"price\": " : String).data =
      '\"' :: (",\n\t\t\t\"price\": " : String).data := by decide
  have e4 : (",\n\t\t\t\"qty\": " : String).data =
      ',' :: ("\n\t\t\t\"qty\": " : String).data := by decide
  have e5 : (",\n\t\t\t\"direction\": \"" : String).data =
      ',' :: ("\n\t\t\t\"direction\": \"" : String).data := by decide
  have e6 : ("\",\n\t\t\t\"orderType\": \"" : String).data =
      '\"' :: (",\n\t\t\t\"orderType\": \"" : String).data := by decide
  have e7 : ("\"\n\t\t\x7d" : String).data = '\"' :: ("\n\t\t\x7d" : String).data := by decide
  have hdata : (orderBodyStr account venue stock price qty dir typ).data =
      ("\x7b\n\t\t\t\"account\": \"" : String).data ++ (account.data ++ ('\"' ::
        ((",\n\t\t\t\"venue\": \"" : String).data ++ (venue.data ++ ('\"' ::
        ((",\n\t\t\t\"stock\": \"" : String).data ++ (stock.data ++ ('\"' ::
        ((",\n\t\t\t\"price\": " : String).data ++ ((Nat.repr price).data ++ (',' ::
        (("\n\t\t\t\"qty\": " : String).data ++ ((Nat.repr qty).data ++ (',' ::
        (("\n\t\t\t\"direction\": \"" : String).data ++ (dir.data ++ ('\"' ::
        ((",\n\t\t\t\"orderType\": \"" : String).data ++ (typ.data ++ ('\"' ::
        ("\n\t\t\x7d" : String).data)))))))))))))))))))) := by
    simp [orderBodyStr, e1, e2, e3, e4, e5, e6, e7]
  have hlex : lexAll ((orderBodyStr account venue stock price qty dir typ).data) = some
      [JTok.lbrace, JTok.str "account", JTok.colon, JTok.str account, JTok.comma,
       JTok.str "venue", JTok.colon, JTok.str venue, JTok.comma,
       JTok.str "stock", JTok.colon, JTok.str stock, JTok.comma,
       JTok.str "price", JTok.colon, JTok.int price, JTok.comma,
       JTok.str "qty", JTok.colon, JTok.int qty, JTok.comma,
       JTok.str "direction", JTok.colon, JTok.str dir, JTok.comma,
       JTok.str "orderType", JTok.colon, JTok.str typ, JTok.rbrace] := by
    unfold lexAll
    rw [hdata,
      lexFold_conc _ _ _ _
        (by decide : (("\x7b\n\t\t\t\"account\": \"" : String).data).foldl lexStep
            ⟨LexMode.top, []⟩ =
          ⟨LexMode.instr [], [JTok.lbrace, JTok.str "account", JTok.colon]⟩),
      lexFold_str_unit account _ _ hA,
      lexFold_conc _ _ _ _
        (by decide : ((",\n\t\t\t\"venue\": \"" : String).data).foldl lexStep
            ⟨LexMode.top, []⟩ =
          ⟨LexMode.instr [], [JTok.comma, JTok.str "venue", JTok.colon]⟩),
      lexFold_str_unit venue _ _ hV,
      lexFold_conc _ _ _ _
        (by decide : ((",\n\t\t\t\"stock\": \"" : String).data).foldl lexStep
            ⟨LexMode.top, []⟩ =
          ⟨LexMode.instr [], [JTok.comma, JTok.str "stock", JTok.colon]⟩),
      lexFold_str_unit stock _ _ hS,
      lexFold_conc _ _ _ _
        (by decide : ((",\n\t\t\t\"price\": " : String).data).foldl lexStep
            ⟨LexMode.top, []⟩ =
          ⟨LexMode.top, [JTok.comma, JTok.str "price", JTok.colon]⟩),
      lexFold_num_unit price,
      lexFold_conc _ _ _ _
        (by decide : (("\n\t\t\t\"qty\": " : String).data).foldl lexStep
            ⟨LexMode.top, []⟩ =
          ⟨LexMode.top, [JTok.str "qty", JTok.colon]⟩),
      lexFold_num_unit qty,
      lexFold_conc _ _ _ _
        (by decide : (("\n\t\t\t\"direction\": \"" : String).data).foldl lexStep
            ⟨LexMode.top, []⟩ =
          ⟨LexMode.instr [], [JTok.str "direction", JTok.colon]⟩),
      lexFold_str_unit dir _ _ hD,
      lexFold_conc _ _ _ _
        (by decide : ((",\n\t\t\t\"orderType\": \"" : String).data).foldl lexStep
            ⟨LexMode.top, []⟩ =
          ⟨LexMode.instr [], [JTok.comma, JTok.str "orderType", JTok.colon]⟩),
      lexFold_str_unit typ _ _ hT,
      lexFold_conc_end _ _ _ _
        (by decide : (("\n\t\t\x7d" : String).data).foldl lexStep ⟨LexMode.top, []⟩ =
          ⟨LexMode.top, [JTok.rbrace]⟩)]
    simp [lexFinish]
  simp only [parseOne, hlex, Option.bind]
  rfl

/-- C9 counterexample: the body's fields are not the arguments as given.
The call with venue `" TESTEX "` renders the body from the trimmed
`"TESTEX"`, so the body is not a JSON object whose `venue` field equals the
argument; and with a double quote in the account argument (interpolated
with no escaping) the body does not parse as JSON at all. -/
theorem c9_counterexample :
    ((Client.PlaceOrder ⟨"key"⟩ (mkT ⟨200, ""⟩) " TESTEX " "FOOBAR" "EXB123456"
        5264 4625 "buy" "limit").2.map Request.body) =
      [some (orderBodyStr "EXB123456" "TESTEX" "FOOBAR" 5264 4625 "buy" "limit")] ∧
    parseOne (orderBodyStr "EXB123456" "TESTEX" "FOOBAR" 5264 4625 "buy" "limit") ≠
      some (Json.obj
        [("account", Json.str "EXB123456"), ("venue", Json.str " TESTEX "),
         ("stock", Json.str "FOOBAR"), ("price", Json.num 5264), ("qty", Json.num 4625),
         ("direction", Json.str "buy"), ("orderType", Json.str "limit")]) ∧
    parseOne (orderBodyStr "EX\"B" "TESTEX" "FOOBAR" 1 2 "buy" "limit") = none := by
  refine ⟨by decide, ?_, by rfl⟩
  have h : parseOne (orderBodyStr "EXB123456" "TESTEX" "FOOBAR" 5264 4625 "buy" "limit") =
      some (Json.obj
        [("account", Json.str "EXB123456"), ("venue", Json.str "TESTEX"),
         ("stock", Json.str "FOOBAR"), ("price", Json.num 5264), ("qty", Json.num 4625),
         ("direction", Json.str "buy"), ("orderType", Json.str "limit")]) := by rfl
  rw [h]
  simp

/-- C9 amended: `PlaceOrder` sends a single POST request to
`/venues/{venue}/stocks/{stock}/orders` built from the trimmed venue and
stock, whose body is the Sprintf rendering over the trimmed identifiers;
and whenever the rendered strings (trimmed account/venue/stock plus the
direction and order type, which are used untrimmed) contain no double
quote, backslash or control character, that body parses as a JSON object
with exactly the fields account, venue, stock, price, qty, direction,
orderType bound to those values. -/
theorem c9_order_body_amended :
    (∀ api t venue stock account price qty dir typ,
      trimSpace venue ≠ "" → trimSpace stock ≠ "" → trimSpace account ≠ "" →
      (Client.PlaceOrder api t venue stock account price qty dir typ).2 =
        [{ method := "POST",
           url := apiBaseURL ++ "/venues/" ++ trimSpace venue ++ "/stocks/" ++
             trimSpace stock ++ "/orders",
           headers := [("X-Starfighter-Authorization", api.apiKey),
             ("Content-Type", "application/json")],
           body := some (orderBodyStr (trimSpace account) (trimSpace venue)
             (trimSpace stock) price qty dir typ) }]) ∧
    (∀ account venue stock price qty dir typ,
      cleanStr account = true → cleanStr venue = true → cleanStr stock = true →
      cleanStr dir = true → cleanStr typ = true →
      parseOne (orderBodyStr account venue stock price qty dir typ) =
        some (Json.obj
          [("account", Json.str account), ("venue", Json.str venue),
           ("stock", Json.str stock), ("price", Json.num price), ("qty", Json.num qty),
           ("direction", Json.str dir), ("orderType", Json.str typ)])) := by
  constructor
  · intro api t venue stock account price qty dir typ h1 h2 h3
    simp [Client.PlaceOrder, h1, h2, h3]
  · intro account venue stock price qty dir typ hA hV hS hD hT
    exact parse_orderBody account venue stock price qty dir typ hA hV hS hD hT

/-- Witness for C9 (amended): the spec's concrete placement scenario. -/
theorem c9_witness :
    (Client.PlaceOrder ⟨"key"⟩ (mkT ⟨200, ""⟩) "TESTEX" "FOOBAR" "EXB123456"
        5264 4625 "buy" "limit").2 =
      [{ method := "POST",
         url := apiBaseURL ++ "/venues/" ++ "TESTEX" ++ "/stocks/" ++ "FOOBAR" ++ "/orders",
         headers := [("X-Starfighter-Authorization", "key"),
           ("Content-Type", "application/json")],
         body := some (orderBodyStr "EXB123456" "TESTEX" "FOOBAR" 5264 4625 "buy" "limit") }] ∧
    parseOne (orderBodyStr "EXB123456" "TESTEX" "FOOBAR" 5264 4625 "buy" "limit") =
      some (Json.obj
        [("account", Json.str "EXB123456"), ("venue", Json.str "TESTEX"),
         ("stock", Json.str "FOOBAR"), ("price", Json.num 5264), ("qty", Json.num 4625),
         ("direction", Json.str "buy"), ("orderType", Json.str "limit")]) :=
  ⟨c9_order_body_amended.1 ⟨"key"⟩ (mkT ⟨200, ""⟩) "TESTEX" "FOOBAR" "EXB123456"
      5264 4625 "buy" "limit" (by decide) (by decide) (by decide),
   c9_order_body_amended.2 "EXB123456" "TESTEX" "FOOBAR" 5264 4625 "buy" "limit"
      (by decide) (by decide) (by decide) (by decide) (by decide)⟩

end Stockfighter
